import Mathlib

/-!
# LED trinket firmware: the 1 kHz timer interrupt of `software/main.c`

Shallow embedding of the interrupt service routine `interrupt` (main.c lines 295-577)
and of the variable initialisation in `main` (lines 591-613).

* `uint8_t` / `uint16_t` globals are natural numbers; every operation that can leave the
  machine range carries its explicit reduction (`% 256`, `% 65536`).
* The port registers `PA` and `PB` are bytes.  Bits 0..6 are outputs, bit 7 of each port
  is an input pin (PA7 = IR receiver, PB7 = button, both active low).  Reading a port
  yields the output bits together with the level of the input pin, which is what
  `sample` installs before the handler body runs.
* The handler body is split into the stages in which it is written in the source:
  `timers`, `debounceButton`, `debounceIR`, `flashStep` (switch on `fstate`),
  `syncStep` (switch on `dstate`) and `ledStage`; `interrupt` is their composition.
* The T16 bookkeeping at the top of the handler (`INTRQ`, `T16C`) and the heartbeat
  toggle of PB1 in the idle loop are not modelled.
-/

namespace Trinket

/-- The firmware globals (main.c lines 249-260) with the port registers and the Timer2
registers written by the handler. -/
structure State where
  dstate : Nat
  dtimeout : Nat
  ttimeout : Nat
  pattern : Nat
  fstate : Nat
  ftimeout : Nat
  buttonshift : Nat
  buttonstate : Nat
  IRrecshift : Nat
  IRrecstate : Nat
  PA : Nat
  PB : Nat
  TM2C : Nat
  TM2CT : Nat
  TM2B : Nat
  TM2S : Nat
deriving DecidableEq, Repr

/-- Levels of the two input pins during one tick (`true` = high).  Both inputs are active
low: `pa7 = false` is an active IR receiver, `pb7 = false` is an active (closed) button. -/
structure Pins where
  pa7 : Bool
  pb7 : Bool
deriving DecidableEq, Repr

/-- Reading `PA` / `PB` returns the input pin level in bit 7. -/
def sample (i : Pins) (s : State) : State :=
  { s with
    PA := (s.PA &&& 0x7f) ||| (if i.pa7 then 0x80 else 0x00)
    PB := (s.PB &&& 0x7f) ||| (if i.pb7 then 0x80 else 0x00) }

/-- Lines 304-309: `pattern++` with wrap at 6144 and the three saturating countdowns. -/
def timers (s : State) : State :=
  let p := (s.pattern + 1) % 65536
  { s with
    pattern := if p ≥ 6144 then 0 else p
    dtimeout := if s.dtimeout ≠ 0 then s.dtimeout - 1 else s.dtimeout
    ttimeout := if s.ttimeout ≠ 0 then s.ttimeout - 1 else s.ttimeout
    ftimeout := if s.ftimeout ≠ 0 then s.ftimeout - 1 else s.ftimeout }

/-- Lines 311-315: debounce the button. -/
def debounceButton (s : State) : State :=
  let b1 := (s.buttonshift <<< 1) % 256
  let b2 := if s.PB &&& 0x80 ≠ 0 then b1 ||| 1 else b1
  let st1 := if b2 = 0xff then 0 else s.buttonstate
  let st2 := if b2 = 0x00 then 1 else st1
  { s with buttonshift := b2, buttonstate := st2 }

/-- Lines 317-321: debounce the IR receiver and detect edges. -/
def debounceIR (s : State) : State :=
  let r1 := (s.IRrecshift <<< 1) % 256
  let r2 := if s.PA &&& 0x80 ≠ 0 then r1 ||| 1 else r1
  let e1 := if r2 &&& 0x1f = 0x1f then ((s.IRrecstate <<< 1) &&& 0x02) % 256 else s.IRrecstate
  let e2 := if r2 &&& 0x1f = 0x00 then (((e1 <<< 1) &&& 0x02) ||| 1) % 256 else e1
  { s with IRrecshift := r2, IRrecstate := e2 }

/-- Lines 312-321: both debouncers. -/
def debounce (s : State) : State := debounceIR (debounceButton s)

/-- Lines 330-423: `switch (fstate)`, the flashlight state machine. -/
def flashStep (s : State) : State :=
  match s.fstate with
  | 0 =>
    if s.buttonstate ≠ 0 then
      { s with PA := s.PA ||| 0b00010001, PB := s.PB ||| 0b01101101, fstate := 1, ftimeout := 500 }
    else s
  | 1 =>
    if s.buttonstate = 0 then
      { s with fstate := 2, ftimeout := (s.ftimeout + 9500) % 65536 }
    else if s.ftimeout = 0 then
      { s with fstate := 5 }
    else s
  | 2 =>
    if s.buttonstate = 1 then
      { s with fstate := 3, PB := s.PB &&& 0x77, ftimeout := 500 }
    else if s.ftimeout = 0 then
      { s with PB := s.PB &&& 0x77, fstate := 0 }
    else s
  | 3 =>
    if s.buttonstate = 0 then
      { s with fstate := 0 }
    else if s.ftimeout = 0 then
      { s with fstate := 4, PA := s.PA ||| 0b00010001, PB := s.PB ||| 0b01101101, ftimeout := 500 }
    else s
  | 4 =>
    if s.buttonstate = 0 then
      { s with fstate := 0, PB := s.PB &&& 0x77 }
    else if s.ftimeout = 0 then
      { s with fstate := 3, PB := s.PB &&& 0x77, ftimeout := 500 }
    else s
  | 5 =>
    if s.buttonstate = 0 then
      { s with PA := s.PA &&& 0x3f, fstate := 6, ftimeout := 50000 }
    else s
  | 6 =>
    if s.buttonstate = 1 then
      { s with PA := s.PA ||| 0x40, fstate := 3, PB := s.PB &&& 0x77, ftimeout := 500 }
    else if s.ftimeout = 0 then
      { s with PA := s.PA ||| 0x40, fstate := 7, PB := s.PB &&& 0x77, ftimeout := 100 }
    else s
  | 7 =>
    if s.ftimeout = 0 then
      { s with fstate := 8, PA := s.PA ||| 0b00010001, PB := s.PB ||| 0b01101101, ftimeout := 2000 }
    else s
  | 8 =>
    if s.buttonstate = 1 then
      { s with fstate := 5 }
    else if s.ftimeout = 0 then
      { s with fstate := 0, PB := s.PB &&& 0x77 }
    else s
  | _ => s

/-- Lines 439-444 and 482-487: start the 38 kHz carrier on Timer2 (with the debug line). -/
def startPulse (s : State) : State :=
  { s with PA := s.PA &&& 0x77, TM2CT := 0, TM2B := 211, TM2S := 0, TM2C := 0b00101100 }

/-- Lines 457-459 and 495-497: stop the carrier and force the IR LED off. -/
def stopPulse (s : State) : State :=
  { s with PA := s.PA ||| 0x08, TM2C := 0, PB := s.PB &&& 0x6f }

/-- Lines 433-507: `switch (dstate)`, the together/alone synchronisation state machine. -/
def syncStep (s : State) : State :=
  match s.dstate with
  | 0 =>
    if s.dtimeout = 0 then
      startPulse { s with dstate := 1, dtimeout := 10 }
    else if s.IRrecstate = 0x01 then
      { s with dstate := 4, ttimeout := 65535, dtimeout := 50 }
    else s
  | 1 =>
    if s.dtimeout = 0 then
      stopPulse { s with dstate := 2, dtimeout := 25 }
    else s
  | 2 =>
    if s.dtimeout = 0 then
      { s with dtimeout := 100, dstate := 3 }
    else s
  | 3 =>
    if s.dtimeout = 0 then
      { s with dtimeout := 30000, dstate := 0 }
    else if s.IRrecstate = 0x01 then
      { s with ttimeout := 65535 }
    else s
  | 4 =>
    if s.dtimeout = 0 then
      startPulse { s with dstate := 5, dtimeout := 10 }
    else s
  | 5 =>
    if s.dtimeout = 0 then
      stopPulse { s with dstate := 6, dtimeout := 75 }
    else s
  | 6 =>
    if s.dtimeout = 0 then
      { s with dtimeout := 30000, dstate := 0 }
    else s
  | _ => s

/-- The accumulators `PA_next` and `PB_next` (lines 263-264). -/
structure Next where
  PA_next : Nat
  PB_next : Nat
deriving DecidableEq, Repr

/-- Line 265: `PA_next &= 0x7e`. -/
def R1_ON (n : Next) : Next := { n with PA_next := n.PA_next &&& 0x7e }
/-- Line 266: `PB_next &= 0x7e`. -/
def G1_ON (n : Next) : Next := { n with PB_next := n.PB_next &&& 0x7e }
/-- Line 267: `PA_next &= 0x6f`. -/
def B1_ON (n : Next) : Next := { n with PA_next := n.PA_next &&& 0x6f }
/-- Line 268: `PB_next &= 0x5f`. -/
def R2_ON (n : Next) : Next := { n with PB_next := n.PB_next &&& 0x5f }
/-- Line 269: `PB_next &= 0x7b`. -/
def G2_ON (n : Next) : Next := { n with PB_next := n.PB_next &&& 0x7b }
/-- Line 270: `PB_next &= 0x3f`. -/
def B2_ON (n : Next) : Next := { n with PB_next := n.PB_next &&& 0x3f }

/-- Lines 516-560: the colour table of the "together" mode. -/
def togetherColour (pattern : Nat) (n : Next) : Next :=
  let phase := ((pattern >>> 9) &&& 0x0f) % 256
  let subphase := (pattern &&& 1) % 256
  match phase with
  | 0 => if subphase ≠ 0 then R1_ON n else n
  | 1 => if subphase ≠ 0 then G2_ON n else B2_ON n
  | 2 => if subphase ≠ 0 then R1_ON n else G1_ON n
  | 3 => if subphase ≠ 0 then B2_ON n else n
  | 4 => if subphase ≠ 0 then G1_ON n else n
  | 5 => if subphase ≠ 0 then R2_ON n else B2_ON n
  | 6 => if subphase ≠ 0 then G1_ON n else B1_ON n
  | 7 => if subphase ≠ 0 then R2_ON n else n
  | 8 => if subphase ≠ 0 then B1_ON n else n
  | 9 => if subphase ≠ 0 then R2_ON n else G2_ON n
  | 10 => if subphase ≠ 0 then R1_ON n else B1_ON n
  | 11 => if subphase ≠ 0 then G2_ON n else n
  | _ => n

/-- Lines 562-569: the white flash of the "alone" mode. -/
def aloneColour (pattern : Nat) (n : Next) : Next :=
  if pattern &&& 0x07f8 = 0x0400 then
    match pattern &&& 3 with
    | 0 => G2_ON (R1_ON n)
    | 1 => B2_ON (G1_ON n)
    | 2 => R2_ON (B1_ON n)
    | _ => n
  else n

/-- Lines 512-570: the next port values computed by the LED stage. -/
def ledNext (s : State) : Next :=
  let n : Next := { PA_next := (s.PA &&& 0x7F) ||| 0x11, PB_next := (s.PB &&& 0x7F) ||| 0x65 }
  if s.ttimeout ≠ 0 then togetherColour s.pattern n else aloneColour s.pattern n

/-- Lines 510-575: the LED stage, run only while the flashlight bit PB3 is low. -/
def ledStage (s : State) : State :=
  if s.PB &&& 0x08 = 0 then
    { s with PA := (ledNext s).PA_next, PB := (ledNext s).PB_next }
  else s

/-- Lines 304-575: the body of the timer interrupt. -/
def interrupt (s : State) : State :=
  ledStage (syncStep (flashStep (debounce (timers s))))

/-- One tick: the handler runs with the input pins at the given levels. -/
def tick (i : Pins) (s : State) : State := interrupt (sample i s)

/-- The state after the first `k` ticks of the input sequence `inp`, starting in `s`. -/
def runTicks (inp : Nat → Pins) (s : State) : Nat → State
  | 0 => s
  | k + 1 => tick (inp k) (runTicks inp s k)

/-- Lines 591-613: the state set up by `main` before interrupts are enabled.  `IRrecshift`
and `IRrecstate` have no initialiser and are zero as objects of static storage; the
Timer2 registers are at their reset value. -/
def powerOn : State :=
  { dstate := 0, ttimeout := 0, dtimeout := 60000, pattern := 0
    fstate := 0, ftimeout := 0
    buttonshift := 0xff, buttonstate := 0
    IRrecshift := 0, IRrecstate := 0
    PA := 0x7f, PB := 0x67
    TM2C := 0, TM2CT := 0, TM2B := 0, TM2S := 0 }

/-- The state seen by the two state machines in a tick: inputs sampled, countdowns
decremented, both debouncers run (lines 304-321). -/
def sensed (i : Pins) (s : State) : State := debounce (timers (sample i s))

/-- PB3 drives the flashlight, active high (pin table, line 178). -/
def lampOn (s : State) : Bool := s.PB.testBit 3

/-- PA6 is the "long flashlight state" debug line, active low (line 188). -/
def debugFlag (s : State) : Bool := !s.PA.testBit 6

/-- Button pin low (pressed contact), IR receiver pin high (no carrier). -/
def btnDown : Pins := { pa7 := true, pb7 := false }

/-- Button pin high (open contact), IR receiver pin high (no carrier). -/
def btnUp : Pins := { pa7 := true, pb7 := true }

/-- Button open, IR receiver pin low (carrier detected). -/
def irActive : Pins := { pa7 := false, pb7 := true }

/-- The button is held down on every tick and the IR receiver never sees a carrier. -/
def held : Nat → Pins := fun _ => btnDown

/-- Nothing happens on the inputs: button open, no carrier. -/
def quiet : Nat → Pins := fun _ => btnUp

/-- The state `main` plus seven ticks with the button held: the debouncer has seen seven
active samples, the flashlight is still off. -/
def exArmed : State :=
  { dstate := 0, dtimeout := 59993, ttimeout := 0, pattern := 7
    fstate := 0, ftimeout := 0
    buttonshift := 0x80, buttonstate := 0
    IRrecshift := 0x7f, IRrecstate := 0
    PA := 0x7f, PB := 0x67
    TM2C := 0, TM2CT := 0, TM2B := 0, TM2S := 0 }

/-- An OnShort state (`fstate = 1`) 200 ticks after the press, the button still debounced
as pressed but with seven open samples in the history. -/
def exOnShort : State :=
  { dstate := 0, dtimeout := 59785, ttimeout := 0, pattern := 215
    fstate := 1, ftimeout := 300
    buttonshift := 0x7f, buttonstate := 1
    IRrecshift := 0xff, IRrecstate := 0
    PA := 0xff, PB := 0x6f
    TM2C := 0, TM2CT := 0, TM2B := 0, TM2S := 0 }

/-- A DebugDelay state (`fstate = 6`): lamp on, debug line PA6 low, button released with
seven pressed samples in the history. -/
def exDebug : State :=
  { dstate := 0, dtimeout := 20000, ttimeout := 0, pattern := 1000
    fstate := 6, ftimeout := 40000
    buttonshift := 0x80, buttonstate := 0
    IRrecshift := 0xff, IRrecstate := 0
    PA := 0xbf, PB := 0x6f
    TM2C := 0, TM2CT := 0, TM2B := 0, TM2S := 0 }

/-- A RearmDelay state (`fstate = 7`): lamp off, 50 ticks left, button released with seven
pressed samples in the history. -/
def exRearm : State :=
  { dstate := 0, dtimeout := 20000, ttimeout := 0, pattern := 1000
    fstate := 7, ftimeout := 50
    buttonshift := 0x80, buttonstate := 0
    IRrecshift := 0xff, IRrecstate := 0
    PA := 0x7f, PB := 0x67
    TM2C := 0, TM2CT := 0, TM2B := 0, TM2S := 0 }

/-- The RearmDelay state `exRearm` on its last tick (countdown 1). -/
def exRearmLast : State := { exRearm with ftimeout := 1 }

/-- A LongOnHold state (`fstate = 8`): lamp on, 1500 ticks left, button released with
seven pressed samples in the history. -/
def exLongOn : State :=
  { dstate := 0, dtimeout := 20000, ttimeout := 0, pattern := 1000
    fstate := 8, ftimeout := 1500
    buttonshift := 0x80, buttonstate := 0
    IRrecshift := 0xff, IRrecstate := 0
    PA := 0xff, PB := 0x6f
    TM2C := 0, TM2CT := 0, TM2B := 0, TM2S := 0 }

/-- The part of the power-on state the flashlight depends on: FlashlightState Off, button
history all inactive (`0xff`), debounced button released, lamp off. -/
def flashPowerOn (s : State) : Prop :=
  s.fstate = 0 ∧ s.buttonshift = 0xff ∧ s.buttonstate = 0 ∧ lampOn s = false

/-- The rows of the transition table in section 4.2 of the specification, as written
there, with the states numbered Off 0, OnShort 1, OffPending 2, BlinkOff 3, BlinkOn 4,
LongPressHold 5, DebugDelay 6, RearmDelay 7, LongOnHold 8: `specRow st pressed zero` tells
whether the table has a row for state `st` when the debounced button is `pressed` and the
countdown is zero (`zero`) or not. -/
def specRow (st : Nat) (pressed : Bool) (timeoutZero : Bool) : Bool :=
  match st with
  | 0 => pressed
  | 1 => !pressed || timeoutZero
  | 2 => pressed || timeoutZero
  | 3 => !pressed || timeoutZero
  | 4 => !pressed || timeoutZero
  | 5 => !pressed
  | 6 => timeoutZero
  | 7 => pressed || timeoutZero
  | 8 => pressed || timeoutZero
  | _ => false

/-- What holds `k` ticks after power-on while the button is held down: the debounce
window (ticks 0..7), then OnShort with its countdown, then LongPressHold. -/
def heldInv (k : Nat) (t : State) : Prop :=
  (k ≤ 7 → t.fstate = 0 ∧ t.buttonstate = 0 ∧ lampOn t = false ∧
    t.buttonshift = (0xff <<< k) % 256) ∧
  (8 ≤ k → t.buttonshift = 0 ∧ t.buttonstate = 1 ∧ lampOn t = true ∧
    (k ≤ 507 → t.fstate = 1 ∧ t.ftimeout = 508 - k) ∧ (508 ≤ k → t.fstate = 5))

/-- A Listen state (`dstate = 0`) with the IR receiver idle and four active samples already
in the IR history. -/
def exListen : State :=
  { dstate := 0, dtimeout := 20000, ttimeout := 0, pattern := 99
    fstate := 0, ftimeout := 0
    buttonshift := 0xff, buttonstate := 0
    IRrecshift := 0xf0, IRrecstate := 0
    PA := 0x7f, PB := 0x67
    TM2C := 0, TM2CT := 0, TM2B := 0, TM2S := 0 }

/-- The Listen state `exListen` on the last tick of its countdown. -/
def exListenLast : State := { exListen with dtimeout := 1 }

/-- The state after the tick of `exListen` that registers a rising edge: TransmitAfterRecv
with `ttimeout = 65535`. -/
def exTogether : State :=
  { dstate := 4, dtimeout := 50, ttimeout := 65535, pattern := 100
    fstate := 0, ftimeout := 0
    buttonshift := 0xff, buttonstate := 0
    IRrecshift := 0xe0, IRrecstate := 1
    PA := 0x7f, PB := 0x67
    TM2C := 0, TM2CT := 0, TM2B := 0, TM2S := 0 }

/-- The power-on state with the pattern counter at its last value. -/
def exWrap : State := { powerOn with pattern := 6143 }

/-- A "together" state whose pattern counter (6656) lies outside the 12 phases: phase 13. -/
def exStray : State := { exTogether with pattern := 6656 }

/-- The tick from `s` with inputs `i` takes one of the two branches that execute
`ttimeout=65535` (lines 446-448 and 472-473): a rising edge registered in Listen or in
ListenPassive while the sync countdown is non-zero. -/
def refreshes (i : Pins) (s : State) : Bool :=
  decide (((sensed i s).dstate = 0 ∨ (sensed i s).dstate = 3) ∧
    (sensed i s).dtimeout ≠ 0 ∧ (sensed i s).IRrecstate = 0x01)

/-- One colour-LED line: 1 when bit `bit` of the port value is low (LED asserted). -/
def ledLow (port bit : Nat) : Nat := if port.testBit bit then 0 else 1

/-- Number of asserted colour-LED lines among PA0 (R1), PA4 (B1), PB0 (G1), PB2 (G2),
PB5 (R2), PB6 (B2) (pin table, lines 169-181). -/
def ledsLit (pa pb : Nat) : Nat :=
  ledLow pa 0 + ledLow pa 4 + ledLow pb 0 + ledLow pb 2 + ledLow pb 5 + ledLow pb 6

/-- The six colour LEDs: red, green and blue of RGB package 1 and of RGB package 2. -/
inductive Led where
  | R1 | G1 | B1 | R2 | G2 | B2
deriving DecidableEq, Repr, Fintype

/-- The line of an LED is low (LED asserted) in the port values `pa`, `pb`: R1 = PA0,
G1 = PB0, B1 = PA4, R2 = PB5, G2 = PB2, B2 = PB6 (pin table, lines 169-181). -/
def Led.low (l : Led) (pa pb : Nat) : Bool :=
  match l with
  | .R1 => !pa.testBit 0
  | .G1 => !pb.testBit 0
  | .B1 => !pa.testBit 4
  | .R2 => !pb.testBit 5
  | .G2 => !pb.testBit 2
  | .B2 => !pb.testBit 6

/-- The source line `R1_ON` .. `B2_ON` (lines 265-270) that asserts an LED. -/
def Led.on (l : Led) (n : Next) : Next :=
  match l with
  | .R1 => R1_ON n
  | .G1 => G1_ON n
  | .B1 => B1_ON n
  | .R2 => R2_ON n
  | .G2 => G2_ON n
  | .B2 => B2_ON n

/-- The RGB package (1 or 2) an LED belongs to. -/
def Led.package (l : Led) : Nat :=
  match l with
  | .R1 | .G1 | .B1 => 1
  | .R2 | .G2 | .B2 => 2

/-- The documented colour table of the "together" mode, as the specification states it
(subphase 1 / subphase 0, `none` for no LED): phase 0 R1/none, 1 G2/B2, 2 R1/G1,
3 B2/none, 4 G1/none, 5 R2/B2, 6 G1/B1, 7 R2/none, 8 B1/none, 9 R2/G2, 10 R1/B1,
11 G2/none; nothing for any other phase. -/
def specColour (phase subphase : Nat) : Option Led :=
  match phase, subphase with
  | 0, 1 => some .R1
  | 1, 1 => some .G2
  | 1, 0 => some .B2
  | 2, 1 => some .R1
  | 2, 0 => some .G1
  | 3, 1 => some .B2
  | 4, 1 => some .G1
  | 5, 1 => some .R2
  | 5, 0 => some .B2
  | 6, 1 => some .G1
  | 6, 0 => some .B1
  | 7, 1 => some .R2
  | 8, 1 => some .B1
  | 9, 1 => some .R2
  | 9, 0 => some .G2
  | 10, 1 => some .R1
  | 10, 0 => some .B1
  | 11, 1 => some .G2
  | _, _ => none

/-- The documented flash table of the "alone" mode, as the specification states it, indexed
by `pattern & 3`: 0 lights R1 and G2, 1 lights G1 and B2, 2 lights B1 and R2, 3 is blank. -/
def specFlash (q : Nat) : List Led :=
  match q with
  | 0 => [.R1, .G2]
  | 1 => [.G1, .B2]
  | 2 => [.B1, .R2]
  | _ => []

/-- Lines 512-513: the accumulators before any LED is asserted. -/
def ledBase (pa pb : Nat) : Next :=
  { PA_next := (pa &&& 0x7F) ||| 0x11, PB_next := (pb &&& 0x7F) ||| 0x65 }

/-- Assert the LED of a table entry, if there is one. -/
def applyColour (c : Option Led) (n : Next) : Next :=
  match c with
  | some l => l.on n
  | none => n

/-- Assert the LEDs of a list, in order. -/
def applyFlash (ls : List Led) (n : Next) : Next := ls.foldl (fun m l => l.on m) n

/-- The levels of the output lines that carry no colour LED: PA1, PA2, PA3, PA5, PA6 and
PB1, PB3, PB4 (debug lines, flashlight, IR transmitter). -/
def otherLines (pa pb : Nat) : List Bool :=
  [pa.testBit 1, pa.testBit 2, pa.testBit 3, pa.testBit 5, pa.testBit 6,
   pb.testBit 1, pb.testBit 3, pb.testBit 4]

/-- A "together" state in phase 1, subphase 1 (pattern counter 513). -/
def exGreen2 : State := { exTogether with pattern := 513 }

/-- An "alone" state inside the second flash window (pattern counter 3073). -/
def exFlash : State := { powerOn with pattern := 3073 }

/-- What holds after `k` consecutive active button samples that follow an inactive one,
starting from released: during the first 7 ticks the history has its low `k` bits clear
and bit `k` set and the state is still released; from the 8th on the history is `0x00` and
the state is pressed. -/
def pressingInv (k : Nat) (t : State) : Prop :=
  (k ≤ 7 → t.buttonstate = 0 ∧ t.buttonshift % 2 ^ k = 0 ∧ t.buttonshift / 2 ^ k % 2 = 1) ∧
  (8 ≤ k → t.buttonstate = 1 ∧ t.buttonshift = 0x00)

/-- The mirror image of `pressingInv` for `k` consecutive inactive samples that follow an
active one, starting from pressed. -/
def releasingInv (k : Nat) (t : State) : Prop :=
  (k ≤ 7 → t.buttonstate = 1 ∧ t.buttonshift % 2 ^ k = 2 ^ k - 1 ∧
    t.buttonshift / 2 ^ k % 2 = 0) ∧
  (8 ≤ k → t.buttonstate = 0 ∧ t.buttonshift = 0xff)

/-- The state eight ticks after power-on with the button held: debounced as pressed. -/
def exPressed : State := runTicks held powerOn 8

/-- A bouncing contact: the raw button sample changes level on every tick. -/
def bouncing : Nat → Pins := fun j => if j % 2 = 0 then btnDown else btnUp

/-- Where the sync engine is `k` ticks after entering Listen with countdown 30000 when no
rising edge is registered: Listen until tick 30000 (Timer2 control as at entry, `c`),
TransmitPrimary (carrier running, `TM2C = 0b00101100`) until 30010, DeafShort until 30035,
ListenPassive until 30135, then Listen again with countdown 30000 (carrier stopped). -/
def cycleInv (c : Nat) (k : Nat) (t : State) : Prop :=
  (k < 30000 → t.dstate = 0 ∧ t.dtimeout = 30000 - k ∧ t.TM2C = c) ∧
  (30000 ≤ k → k < 30010 → t.dstate = 1 ∧ t.dtimeout = 30010 - k ∧ t.TM2C = 0b00101100) ∧
  (30010 ≤ k → k < 30035 → t.dstate = 2 ∧ t.dtimeout = 30035 - k ∧ t.TM2C = 0) ∧
  (30035 ≤ k → k < 30135 → t.dstate = 3 ∧ t.dtimeout = 30135 - k ∧ t.TM2C = 0) ∧
  (k = 30135 → t.dstate = 0 ∧ t.dtimeout = 30000 ∧ t.TM2C = 0)

/-- A device that has just entered Listen with countdown 30000, alone, carrier stopped, IR
receiver idle. -/
def exCycle : State := { powerOn with dtimeout := 30000, IRrecshift := 0xff }

/-- All six colour-LED lines PA0, PA4, PB0, PB2, PB5, PB6 are high (no colour LED lit). -/
def allHigh (s : State) : Bool :=
  s.PA.testBit 0 && s.PA.testBit 4 && s.PB.testBit 0 && s.PB.testBit 2 && s.PB.testBit 5 &&
    s.PB.testBit 6

/-- Flashlight states in which the code leaves the flashlight output switched on:
OnShort 1, OffPending 2, BlinkOn 4, LongPressHold 5, DebugDelay 6, LongOnHold 8. -/
def lampStates (f : Nat) : Bool :=
  decide (f = 1 ∨ f = 2 ∨ f = 4 ∨ f = 5 ∨ f = 6 ∨ f = 8)

/-- Invariant of the flashlight machine: `fstate` is one of the nine cases of
`switch (fstate)` and PB3 agrees with `lampStates`. -/
def flashInv (t : State) : Prop := t.fstate ≤ 8 ∧ lampOn t = lampStates t.fstate

/-! ## Stage lemmas -/

theorem tick_eq (i : Pins) (s : State) :
    tick i s = ledStage (syncStep (flashStep (sensed i s))) := rfl

theorem and_two_pow_eq_zero (x k : Nat) : x &&& 2 ^ k = 0 ↔ x.testBit k = false := by
  constructor
  · intro h
    have := congrArg (fun y => y.testBit k) h
    simpa [Nat.testBit_two_pow_self] using this
  · intro h
    apply Nat.eq_of_testBit_eq
    intro i
    rw [Nat.testBit_and, Nat.testBit_two_pow]
    by_cases hi : k = i
    · subst hi; simp [h]
    · simp [hi]

theorem lampOff_iff (s : State) : s.PB &&& 0x08 = 0 ↔ lampOn s = false :=
  and_two_pow_eq_zero s.PB 3

theorem sensed_fstate (i : Pins) (s : State) : (sensed i s).fstate = s.fstate := rfl

theorem sensed_dstate (i : Pins) (s : State) : (sensed i s).dstate = s.dstate := rfl

theorem sensed_ftimeout (i : Pins) (s : State) : (sensed i s).ftimeout = s.ftimeout - 1 := by
  show (if s.ftimeout ≠ 0 then s.ftimeout - 1 else s.ftimeout) = s.ftimeout - 1
  split <;> omega

theorem sensed_dtimeout (i : Pins) (s : State) : (sensed i s).dtimeout = s.dtimeout - 1 := by
  show (if s.dtimeout ≠ 0 then s.dtimeout - 1 else s.dtimeout) = s.dtimeout - 1
  split <;> omega

theorem sensed_ttimeout (i : Pins) (s : State) : (sensed i s).ttimeout = s.ttimeout - 1 := by
  show (if s.ttimeout ≠ 0 then s.ttimeout - 1 else s.ttimeout) = s.ttimeout - 1
  split <;> omega

theorem sensed_lampOn (i : Pins) (s : State) : lampOn (sensed i s) = lampOn s := by
  show ((s.PB &&& 0x7f) ||| (if i.pb7 then 0x80 else 0x00)).testBit 3 = s.PB.testBit 3
  rw [Bool.eq_iff_iff]
  cases i.pb7 <;> simp +decide

theorem sensed_debugFlag (i : Pins) (s : State) : debugFlag (sensed i s) = debugFlag s := by
  show (!((s.PA &&& 0x7f) ||| (if i.pa7 then 0x80 else 0x00)).testBit 6) = !s.PA.testBit 6
  congr 1
  rw [Bool.eq_iff_iff]
  cases i.pa7 <;> simp +decide

theorem ledStage_fstate (s : State) : (ledStage s).fstate = s.fstate := by
  unfold ledStage; split <;> rfl

theorem ledStage_ftimeout (s : State) : (ledStage s).ftimeout = s.ftimeout := by
  unfold ledStage; split <;> rfl

theorem ledStage_dstate (s : State) : (ledStage s).dstate = s.dstate := by
  unfold ledStage; split <;> rfl

theorem ledStage_dtimeout (s : State) : (ledStage s).dtimeout = s.dtimeout := by
  unfold ledStage; split <;> rfl

theorem ledStage_ttimeout (s : State) : (ledStage s).ttimeout = s.ttimeout := by
  unfold ledStage; split <;> rfl

theorem ledStage_pattern (s : State) : (ledStage s).pattern = s.pattern := by
  unfold ledStage; split <;> rfl

theorem ledStage_buttonshift (s : State) : (ledStage s).buttonshift = s.buttonshift := by
  unfold ledStage; split <;> rfl

theorem ledStage_buttonstate (s : State) : (ledStage s).buttonstate = s.buttonstate := by
  unfold ledStage; split <;> rfl

theorem ledStage_lampOn (s : State) : lampOn (ledStage s) = lampOn s := by
  unfold lampOn ledStage ledNext togetherColour aloneColour R1_ON G1_ON B1_ON R2_ON G2_ON B2_ON
  split
  · dsimp only
    split <;> (repeat' split) <;> (rw [Bool.eq_iff_iff]; simp +decide)
  · rfl

theorem ledStage_debugFlag (s : State) : debugFlag (ledStage s) = debugFlag s := by
  unfold debugFlag ledStage ledNext togetherColour aloneColour R1_ON G1_ON B1_ON R2_ON G2_ON B2_ON
  split
  · dsimp only
    congr 1
    split <;> (repeat' split) <;> (rw [Bool.eq_iff_iff]; simp +decide)
  · rfl

theorem syncStep_fstate (s : State) : (syncStep s).fstate = s.fstate := by
  unfold syncStep startPulse stopPulse
  split <;> (repeat' split) <;> rfl

theorem syncStep_ftimeout (s : State) : (syncStep s).ftimeout = s.ftimeout := by
  unfold syncStep startPulse stopPulse
  split <;> (repeat' split) <;> rfl

theorem syncStep_pattern (s : State) : (syncStep s).pattern = s.pattern := by
  unfold syncStep startPulse stopPulse
  split <;> (repeat' split) <;> rfl

theorem syncStep_buttonshift (s : State) : (syncStep s).buttonshift = s.buttonshift := by
  unfold syncStep startPulse stopPulse
  split <;> (repeat' split) <;> rfl

theorem syncStep_buttonstate (s : State) : (syncStep s).buttonstate = s.buttonstate := by
  unfold syncStep startPulse stopPulse
  split <;> (repeat' split) <;> rfl

theorem syncStep_lampOn (s : State) : lampOn (syncStep s) = lampOn s := by
  unfold lampOn syncStep startPulse stopPulse
  split <;> (repeat' split) <;> first | rfl | (rw [Bool.eq_iff_iff]; simp +decide)

theorem syncStep_debugFlag (s : State) : debugFlag (syncStep s) = debugFlag s := by
  unfold debugFlag syncStep startPulse stopPulse
  split <;> (repeat' split) <;> first | rfl | (congr 1; rw [Bool.eq_iff_iff]; simp +decide)

theorem flashStep_dstate (s : State) : (flashStep s).dstate = s.dstate := by
  unfold flashStep
  split <;> (repeat' split) <;> rfl

theorem flashStep_dtimeout (s : State) : (flashStep s).dtimeout = s.dtimeout := by
  unfold flashStep
  split <;> (repeat' split) <;> rfl

theorem flashStep_ttimeout (s : State) : (flashStep s).ttimeout = s.ttimeout := by
  unfold flashStep
  split <;> (repeat' split) <;> rfl

theorem flashStep_pattern (s : State) : (flashStep s).pattern = s.pattern := by
  unfold flashStep
  split <;> (repeat' split) <;> rfl

theorem flashStep_IRrecstate (s : State) : (flashStep s).IRrecstate = s.IRrecstate := by
  unfold flashStep
  split <;> (repeat' split) <;> rfl

theorem flashStep_buttonshift (s : State) : (flashStep s).buttonshift = s.buttonshift := by
  unfold flashStep
  split <;> (repeat' split) <;> rfl

theorem flashStep_buttonstate (s : State) : (flashStep s).buttonstate = s.buttonstate := by
  unfold flashStep
  split <;> (repeat' split) <;> rfl

/-- The flashlight state after a tick is decided by `flashStep` alone. -/
theorem tick_fstate (i : Pins) (s : State) :
    (tick i s).fstate = (flashStep (sensed i s)).fstate := by
  rw [tick_eq, ledStage_fstate, syncStep_fstate]

theorem tick_ftimeout (i : Pins) (s : State) :
    (tick i s).ftimeout = (flashStep (sensed i s)).ftimeout := by
  rw [tick_eq, ledStage_ftimeout, syncStep_ftimeout]

theorem tick_lampOn (i : Pins) (s : State) :
    lampOn (tick i s) = lampOn (flashStep (sensed i s)) := by
  rw [tick_eq, ledStage_lampOn, syncStep_lampOn]

theorem tick_debugFlag (i : Pins) (s : State) :
    debugFlag (tick i s) = debugFlag (flashStep (sensed i s)) := by
  rw [tick_eq, ledStage_debugFlag, syncStep_debugFlag]

theorem tick_buttonshift (i : Pins) (s : State) :
    (tick i s).buttonshift = (sensed i s).buttonshift := by
  rw [tick_eq, ledStage_buttonshift, syncStep_buttonshift, flashStep_buttonshift]

theorem tick_buttonstate (i : Pins) (s : State) :
    (tick i s).buttonstate = (sensed i s).buttonstate := by
  rw [tick_eq, ledStage_buttonstate, syncStep_buttonstate, flashStep_buttonstate]

theorem sensed_buttonshift_down (i : Pins) (s : State) (hi : i.pb7 = false) :
    (sensed i s).buttonshift = (s.buttonshift <<< 1) % 256 := by
  have h0 : ((s.PB &&& 0x7f) ||| (if i.pb7 then 0x80 else 0x00)) &&& 0x80 = 0 := by
    rw [hi]
    apply Nat.eq_of_testBit_eq
    intro j
    have h80 : (0x80 : Nat) = 2 ^ 7 := by norm_num
    have h7f : (0x7f : Nat) = 2 ^ 7 - 1 := by norm_num
    simp only [Bool.false_eq_true, if_false, Nat.or_zero, Nat.testBit_and, Nat.zero_testBit, h80, h7f,
      Nat.testBit_two_pow, Nat.testBit_two_pow_sub_one]
    by_cases hj : 7 = j
    · subst hj; simp
    · simp [hj]
  show (if ((s.PB &&& 0x7f) ||| (if i.pb7 then 0x80 else 0x00)) &&& 0x80 ≠ 0
      then (s.buttonshift <<< 1) % 256 ||| 1 else (s.buttonshift <<< 1) % 256) = _
  rw [if_neg (by rw [h0]; simp)]

theorem sensed_buttonstate (i : Pins) (s : State) :
    (sensed i s).buttonstate =
      if (sensed i s).buttonshift = 0x00 then 1
      else if (sensed i s).buttonshift = 0xff then 0 else s.buttonstate := rfl

theorem ledStage_IRrecshift (s : State) : (ledStage s).IRrecshift = s.IRrecshift := by
  unfold ledStage; split <;> rfl

theorem ledStage_IRrecstate (s : State) : (ledStage s).IRrecstate = s.IRrecstate := by
  unfold ledStage; split <;> rfl

theorem syncStep_IRrecshift (s : State) : (syncStep s).IRrecshift = s.IRrecshift := by
  unfold syncStep startPulse stopPulse
  split <;> (repeat' split) <;> rfl

theorem syncStep_IRrecstate (s : State) : (syncStep s).IRrecstate = s.IRrecstate := by
  unfold syncStep startPulse stopPulse
  split <;> (repeat' split) <;> rfl

theorem flashStep_IRrecshift (s : State) : (flashStep s).IRrecshift = s.IRrecshift := by
  unfold flashStep
  split <;> (repeat' split) <;> rfl

theorem tick_IRrecshift (i : Pins) (s : State) :
    (tick i s).IRrecshift = (sensed i s).IRrecshift := by
  rw [tick_eq, ledStage_IRrecshift, syncStep_IRrecshift, flashStep_IRrecshift]

theorem tick_IRrecstate (i : Pins) (s : State) :
    (tick i s).IRrecstate = (sensed i s).IRrecstate := by
  rw [tick_eq, ledStage_IRrecstate, syncStep_IRrecstate, flashStep_IRrecstate]

/-- With the receiver pin high and an all-inactive IR history the IR code stays idle. -/
theorem sensed_IR_idle (i : Pins) (s : State) (hi : i.pa7 = true)
    (hsh : s.IRrecshift = 0xff) (hst : s.IRrecstate = 0) :
    (sensed i s).IRrecshift = 0xff ∧ (sensed i s).IRrecstate = 0 := by
  have h7 : ((s.PA &&& 0x7f) ||| (if i.pa7 then 0x80 else 0x00)) &&& 0x80 ≠ 0 := by
    rw [hi]
    intro h
    have h' := (and_two_pow_eq_zero ((s.PA &&& 0x7f) ||| 0x80) 7).1 h
    simp +decide at h'
  have hshift : (sensed i s).IRrecshift = 0xff := by
    show (if ((s.PA &&& 0x7f) ||| (if i.pa7 then 0x80 else 0x00)) &&& 0x80 ≠ 0
      then (s.IRrecshift <<< 1) % 256 ||| 1 else (s.IRrecshift <<< 1) % 256) = 0xff
    rw [if_pos h7, hsh]
    decide
  refine ⟨hshift, ?_⟩
  show (if (sensed i s).IRrecshift &&& 0x1f = 0x00 then
      ((((if (sensed i s).IRrecshift &&& 0x1f = 0x1f then ((s.IRrecstate <<< 1) &&& 0x02) % 256
        else s.IRrecstate) <<< 1) &&& 0x02) ||| 1) % 256
    else (if (sensed i s).IRrecshift &&& 0x1f = 0x1f then ((s.IRrecstate <<< 1) &&& 0x02) % 256
        else s.IRrecstate)) = 0
  rw [hshift, hst]
  decide

/-! ## The flashlight state machine -/

theorem flashStep_hold (d : State) (hb : d.buttonstate = 0 ∨ d.buttonstate = 1)
    (hrow : specRow d.fstate (decide (d.buttonstate = 1)) (decide (d.ftimeout = 0)) = false)
    (hdbg : ¬ (d.fstate = 6 ∧ d.buttonstate = 1)) : flashStep d = d := by
  unfold flashStep
  unfold specRow at hrow
  rcases hb with hb | hb <;> split <;> simp_all

theorem flashStep_onShort_expired (d : State) (h : d.fstate = 1) (hb : d.buttonstate ≠ 0)
    (ht : d.ftimeout = 0) : flashStep d = { d with fstate := 5 } := by
  simp [flashStep, h, hb, ht]

/-- A tick of the flashlight machine that holds its state. -/
theorem hold_tick (i : Pins) (s : State) (hf : flashStep (sensed i s) = sensed i s) :
    (tick i s).fstate = s.fstate ∧ (tick i s).ftimeout = s.ftimeout - 1 ∧
    lampOn (tick i s) = lampOn s ∧ debugFlag (tick i s) = debugFlag s := by
  refine ⟨?_, ?_, ?_, ?_⟩
  · rw [tick_fstate, hf, sensed_fstate]
  · rw [tick_ftimeout, hf, sensed_ftimeout]
  · rw [tick_lampOn, hf, sensed_lampOn]
  · rw [tick_debugFlag, hf, sensed_debugFlag]


theorem flashStep_off_pressed (d : State) (h : d.fstate = 0) (hb : d.buttonstate ≠ 0) :
    flashStep d =
      { d with PA := d.PA ||| 0b00010001, PB := d.PB ||| 0b01101101, fstate := 1, ftimeout := 500 } := by
  simp [flashStep, h, hb]

theorem flashStep_onShort_released (d : State) (h : d.fstate = 1) (hb : d.buttonstate = 0) :
    flashStep d = { d with fstate := 2, ftimeout := (d.ftimeout + 9500) % 65536 } := by
  simp [flashStep, h, hb]

theorem flashStep_debug_pressed (d : State) (h : d.fstate = 6) (hb : d.buttonstate = 1) :
    flashStep d =
      { d with PA := d.PA ||| 0x40, fstate := 3, PB := d.PB &&& 0x77, ftimeout := 500 } := by
  simp [flashStep, h, hb]

theorem flashStep_rearm_running (d : State) (h : d.fstate = 7) (ht : d.ftimeout ≠ 0) :
    flashStep d = d := by
  simp [flashStep, h, ht]

theorem flashStep_rearm_expired (d : State) (h : d.fstate = 7) (ht : d.ftimeout = 0) :
    flashStep d =
      { d with fstate := 8, PA := d.PA ||| 0b00010001, PB := d.PB ||| 0b01101101, ftimeout := 2000 } := by
  simp [flashStep, h, ht]

theorem flashStep_longOn_pressed (d : State) (h : d.fstate = 8) (hb : d.buttonstate = 1) :
    flashStep d = { d with fstate := 5 } := by
  simp [flashStep, h, hb]

/-- In Off with the debounced button pressed a tick enters OnShort, switches the lamp on
and loads the countdown with 500. -/
theorem off_pressed_tick (i : Pins) (s : State) (h : s.fstate = 0)
    (hb : (sensed i s).buttonstate ≠ 0) :
    (tick i s).fstate = 1 ∧ (tick i s).ftimeout = 500 ∧ lampOn (tick i s) = true := by
  have hf := flashStep_off_pressed (sensed i s) (by rw [sensed_fstate, h]) hb
  refine ⟨by rw [tick_fstate, hf], by rw [tick_ftimeout, hf], ?_⟩
  rw [tick_lampOn, hf]
  show ((sensed i s).PB ||| 0b01101101).testBit 3 = true
  simp +decide

theorem runTicks_succ (inp : Nat → Pins) (s : State) (k : Nat) :
    runTicks inp s (k + 1) = tick (inp k) (runTicks inp s k) := rfl

theorem heldInv_step (i : Pins) (t : State) (k : Nat) (hi : i.pb7 = false)
    (hinv : heldInv k t) : heldInv (k + 1) (tick i t) := by
  obtain ⟨hA, hB⟩ := hinv
  have hsh := sensed_buttonshift_down i t hi
  have hst := sensed_buttonstate i t
  rw [hsh] at hst
  by_cases hk7 : k ≤ 7
  · obtain ⟨h0, hbs, hl, hsft⟩ := hA hk7
    rw [hsft] at hsh hst
    by_cases hk6 : k ≤ 6
    · have hshift : (((0xff <<< k) % 256) <<< 1) % 256 = (0xff <<< (k + 1)) % 256 ∧
          (0xff <<< (k + 1)) % 256 ≠ 0 ∧ (0xff <<< (k + 1)) % 256 ≠ 0xff := by
        interval_cases k <;> decide
      rw [hshift.1] at hsh hst
      rw [if_neg hshift.2.1, if_neg hshift.2.2, hbs] at hst
      have hf : flashStep (sensed i t) = sensed i t :=
        flashStep_hold _ (Or.inl hst) (by rw [sensed_fstate, h0, hst]; rfl)
          (by rw [sensed_fstate, h0]; simp)
      obtain ⟨g1, _, g3, _⟩ := hold_tick i t hf
      exact ⟨fun _ => ⟨by rw [g1, h0], by rw [tick_buttonstate, hst], by rw [g3, hl],
        by rw [tick_buttonshift, hsh]⟩, fun h => absurd h (by omega)⟩
    · have hk7e : k = 7 := by omega
      subst hk7e
      have hz : (((0xff <<< 7) % 256) <<< 1) % 256 = 0 := by decide
      rw [hz] at hsh hst
      rw [if_pos rfl] at hst
      obtain ⟨g1, g2, g3⟩ := off_pressed_tick i t h0 (by rw [hst]; decide)
      exact ⟨fun h => absurd h (by omega), fun _ => ⟨by rw [tick_buttonshift, hsh],
        by rw [tick_buttonstate, hst], g3, fun _ => ⟨g1, g2⟩, fun h => absurd h (by omega)⟩⟩
  · obtain ⟨hsft, hbs, hl, hB1, hB5⟩ := hB (by omega)
    rw [hsft] at hsh hst
    have hz : ((0 : Nat) <<< 1) % 256 = 0 := by decide
    rw [hz] at hsh hst
    rw [if_pos rfl] at hst
    have hbtn : (tick i t).buttonshift = 0 ∧ (tick i t).buttonstate = 1 :=
      ⟨by rw [tick_buttonshift, hsh], by rw [tick_buttonstate, hst]⟩
    refine ⟨fun h => absurd h (by omega), fun _ => ?_⟩
    by_cases hk507 : k ≤ 507
    · obtain ⟨h1, hft⟩ := hB1 hk507
      have hdec : (sensed i t).ftimeout = 507 - k := by rw [sensed_ftimeout, hft]; omega
      by_cases hk506 : k ≤ 506
      · have hf : flashStep (sensed i t) = sensed i t :=
          flashStep_hold _ (Or.inr hst)
            (by rw [sensed_fstate, h1, hst, hdec]; simp [specRow]; omega)
            (by rw [sensed_fstate, h1]; simp)
        obtain ⟨g1, g2, g3, _⟩ := hold_tick i t hf
        exact ⟨hbtn.1, hbtn.2, by rw [g3, hl], fun _ => ⟨by rw [g1, h1], by rw [g2, hft]; omega⟩,
          fun h => absurd h (by omega)⟩
      · have hf := flashStep_onShort_expired (sensed i t) (by rw [sensed_fstate, h1])
          (by rw [hst]; decide) (by rw [hdec]; omega)
        exact ⟨hbtn.1, hbtn.2, by rw [tick_lampOn, hf]; exact (sensed_lampOn i t).trans hl,
          fun h => absurd h (by omega), fun _ => by rw [tick_fstate, hf]⟩
    · have h5 := hB5 (by omega)
      have hf : flashStep (sensed i t) = sensed i t :=
        flashStep_hold _ (Or.inr hst) (by rw [sensed_fstate, h5, hst]; rfl)
          (by rw [sensed_fstate, h5]; simp)
      obtain ⟨g1, _, g3, _⟩ := hold_tick i t hf
      exact ⟨hbtn.1, hbtn.2, by rw [g3, hl], fun h => absurd h (by omega),
        fun _ => by rw [g1, h5]⟩

theorem held_trace (inp : Nat → Pins) (s : State) (hs : flashPowerOn s) (n : Nat)
    (hheld : ∀ j < n, (inp j).pb7 = false) (k : Nat) (hk : k ≤ n) :
    heldInv k (runTicks inp s k) := by
  induction k with
  | zero =>
    obtain ⟨h1, h2, h3, h4⟩ := hs
    exact ⟨fun _ => ⟨h1, h3, h4, by simpa using h2⟩, fun h => absurd h (by omega)⟩
  | succ k ih =>
    rw [runTicks_succ]
    exact heldInv_step (inp k) _ k (hheld k (by omega)) (ih (by omega))

/-- C1 (evaluation at the failing input).  `exArmed` is the state `main` sets up followed by
seven ticks with the button held; it is in Off.  On the next tick with the button still
held the debounced button state becomes pressed, the state machine enters OnShort and the
lamp is switched on, but the countdown is loaded with 500, not with 2000. -/
theorem C1_off_pressed_loads_500 :
    exArmed = runTicks held powerOn 7 ∧ exArmed.fstate = 0 ∧
    (sensed btnDown exArmed).buttonstate = 1 ∧
    (tick btnDown exArmed).fstate = 1 ∧ lampOn (tick btnDown exArmed) = true ∧
    (tick btnDown exArmed).ftimeout = 500 ∧ (tick btnDown exArmed).ftimeout ≠ 2000 := by
  decide

/-- C2 (counterexample): from the state set up by `main`, with the button held and no IR
input, the lamp is still off and the state still Off after the first tick, and after tick
1999 the state is LongPressHold (`fstate = 5`), not OnShort. -/
theorem C2_held_lamp_off_at_first_tick :
    lampOn (runTicks held powerOn 1) = false ∧ (runTicks held powerOn 1).fstate = 0 ∧
    (runTicks held powerOn 1999).fstate = 5 ∧ (runTicks held powerOn 1999).fstate ≠ 1 := by
  have h := (held_trace held powerOn ⟨rfl, rfl, rfl, rfl⟩ 1999 (fun _ _ => rfl) 1999
    (Nat.le_refl _)).2 (by decide)
  have h5 := h.2.2.2.2 (by decide)
  refine ⟨by decide, by decide, h5, ?_⟩
  rw [h5]
  decide

/-- C2 (amended): start in a state that agrees with power-on for the flashlight (state Off,
button history all inactive, lamp off) and run 2000 ticks with the raw button sample
active on every tick, whatever the IR input.  After each of the first 7 ticks the state is
still Off and the lamp still off (the debouncer needs 8 samples); after the 8th tick the
state is OnShort; after every tick from the 8th to the 2000th the lamp is ON and the state
is OnShort or LongPressHold. -/
theorem C2_held_button_from_powerOn (inp : Nat → Pins) (s : State) (hs : flashPowerOn s)
    (hheld : ∀ j < 2000, (inp j).pb7 = false) (k : Nat) (hk : k ≤ 2000) :
    (k ≤ 7 → (runTicks inp s k).fstate = 0 ∧ lampOn (runTicks inp s k) = false) ∧
    (k = 8 → (runTicks inp s k).fstate = 1) ∧
    (8 ≤ k → lampOn (runTicks inp s k) = true ∧
      ((runTicks inp s k).fstate = 1 ∨ (runTicks inp s k).fstate = 5)) := by
  obtain ⟨hA, hB⟩ := held_trace inp s hs 2000 hheld k hk
  refine ⟨fun h => ⟨(hA h).1, (hA h).2.2.1⟩, fun h => ((hB (by omega)).2.2.2.1 (by omega)).1,
    fun h => ⟨(hB h).2.2.1, ?_⟩⟩
  by_cases h507 : k ≤ 507
  · exact Or.inl ((hB h).2.2.2.1 h507).1
  · exact Or.inr ((hB h).2.2.2.2 (by omega))

/-- Witness for C2 (amended): the state set up by `main` with the button held, after 3,
after 8 and after 2000 ticks. -/
theorem C2_held_button_from_powerOn_witness :
    (flashPowerOn powerOn ∧ (∀ j < 2000, (held j).pb7 = false)) ∧
    ((runTicks held powerOn 3).fstate = 0 ∧ lampOn (runTicks held powerOn 3) = false) ∧
    (runTicks held powerOn 8).fstate = 1 ∧
    (lampOn (runTicks held powerOn 8) = true ∧
      ((runTicks held powerOn 8).fstate = 1 ∨ (runTicks held powerOn 8).fstate = 5)) ∧
    (lampOn (runTicks held powerOn 2000) = true ∧
      ((runTicks held powerOn 2000).fstate = 1 ∨ (runTicks held powerOn 2000).fstate = 5)) :=
  ⟨⟨⟨rfl, rfl, rfl, rfl⟩, fun _ _ => rfl⟩,
   (C2_held_button_from_powerOn held powerOn ⟨rfl, rfl, rfl, rfl⟩ (fun _ _ => rfl) 3
      (by decide)).1 (by decide),
   (C2_held_button_from_powerOn held powerOn ⟨rfl, rfl, rfl, rfl⟩ (fun _ _ => rfl) 8
      (by decide)).2.1 rfl,
   (C2_held_button_from_powerOn held powerOn ⟨rfl, rfl, rfl, rfl⟩ (fun _ _ => rfl) 8
      (by decide)).2.2 (by decide),
   (C2_held_button_from_powerOn held powerOn ⟨rfl, rfl, rfl, rfl⟩ (fun _ _ => rfl) 2000
      (by decide)).2.2 (by decide)⟩

/-- C3: in OnShort (`fstate = 1`), on a tick whose debounced button state is released, the
next state is OffPending (`fstate = 2`), the lamp output keeps its value (so it stays ON),
and the countdown becomes `(r + 9500) mod 2^16` where `r` is the countdown after this
tick's decrement; for `r ≤ 2000` this is `r + 9500` and fits in 16 bits. -/
theorem C3_onShort_released (i : Pins) (s : State) (h : s.fstate = 1)
    (hb : (sensed i s).buttonstate = 0) :
    (tick i s).fstate = 2 ∧ lampOn (tick i s) = lampOn s ∧
    (sensed i s).ftimeout = s.ftimeout - 1 ∧
    (tick i s).ftimeout = ((sensed i s).ftimeout + 9500) % 65536 ∧
    ((sensed i s).ftimeout ≤ 2000 →
      (tick i s).ftimeout = (sensed i s).ftimeout + 9500 ∧ (sensed i s).ftimeout + 9500 < 65536) := by
  have hf := flashStep_onShort_released (sensed i s) (by rw [sensed_fstate, h]) hb
  have ht : (tick i s).ftimeout = ((sensed i s).ftimeout + 9500) % 65536 := by
    rw [tick_ftimeout, hf]
  refine ⟨by rw [tick_fstate, hf], ?_, sensed_ftimeout i s, ht, ?_⟩
  · rw [tick_lampOn, hf]
    exact sensed_lampOn i s
  · intro hr
    rw [ht]
    omega

/-- Witness for C3: `exOnShort` is in OnShort and the tick with the button pin high
debounces the button as released. -/
theorem C3_onShort_released_witness :
    (exOnShort.fstate = 1 ∧ (sensed btnUp exOnShort).buttonstate = 0) ∧
    ((tick btnUp exOnShort).fstate = 2 ∧ lampOn (tick btnUp exOnShort) = lampOn exOnShort ∧
    (sensed btnUp exOnShort).ftimeout = exOnShort.ftimeout - 1 ∧
    (tick btnUp exOnShort).ftimeout = ((sensed btnUp exOnShort).ftimeout + 9500) % 65536 ∧
    ((sensed btnUp exOnShort).ftimeout ≤ 2000 →
      (tick btnUp exOnShort).ftimeout = (sensed btnUp exOnShort).ftimeout + 9500 ∧
      (sensed btnUp exOnShort).ftimeout + 9500 < 65536)) :=
  ⟨by decide, C3_onShort_released btnUp exOnShort (by decide) (by decide)⟩

/-- C4 (counterexample): `exLongOn` is in LongOnHold (`fstate = 8`); on a tick that
debounces the button as pressed the next state is LongPressHold (`fstate = 5`), not
DebugDelay (`fstate = 6`). -/
theorem C4_longOnHold_pressed_not_debugDelay :
    exLongOn.fstate = 8 ∧ (sensed btnDown exLongOn).buttonstate = 1 ∧
    (tick btnDown exLongOn).fstate = 5 ∧ (tick btnDown exLongOn).fstate ≠ 6 := by
  decide

/-- C4 (amended): in LongOnHold (`fstate = 8`), on a tick whose debounced button state is
pressed, the next state is LongPressHold (`fstate = 5`); the flashlight step changes
nothing but `fstate`, so the countdown is not reloaded (it keeps its decremented value)
and neither the lamp output nor the debug line changes. -/
theorem C4_longOnHold_pressed (i : Pins) (s : State) (h : s.fstate = 8)
    (hb : (sensed i s).buttonstate = 1) :
    flashStep (sensed i s) = { sensed i s with fstate := 5 } ∧
    (tick i s).fstate = 5 ∧ (tick i s).ftimeout = s.ftimeout - 1 ∧
    lampOn (tick i s) = lampOn s ∧ debugFlag (tick i s) = debugFlag s := by
  have hf := flashStep_longOn_pressed (sensed i s) (by rw [sensed_fstate, h]) hb
  refine ⟨hf, by rw [tick_fstate, hf], ?_, ?_, ?_⟩
  · rw [tick_ftimeout, hf]
    exact sensed_ftimeout i s
  · rw [tick_lampOn, hf]
    exact sensed_lampOn i s
  · rw [tick_debugFlag, hf]
    exact sensed_debugFlag i s

/-- Witness for C4 (amended): `exLongOn` is in LongOnHold and the tick with the button pin
low debounces the button as pressed. -/
theorem C4_longOnHold_pressed_witness :
    (exLongOn.fstate = 8 ∧ (sensed btnDown exLongOn).buttonstate = 1) ∧
    (flashStep (sensed btnDown exLongOn) = { sensed btnDown exLongOn with fstate := 5 } ∧
    (tick btnDown exLongOn).fstate = 5 ∧ (tick btnDown exLongOn).ftimeout = exLongOn.ftimeout - 1 ∧
    lampOn (tick btnDown exLongOn) = lampOn exLongOn ∧
    debugFlag (tick btnDown exLongOn) = debugFlag exLongOn) :=
  ⟨by decide, C4_longOnHold_pressed btnDown exLongOn (by decide) (by decide)⟩

/-- C5 (counterexample): `exRearm` is in RearmDelay (`fstate = 7`) with 50 ticks left; on a
tick that debounces the button as pressed the state machine stays in RearmDelay with the
countdown at 49: it does not enter BlinkOff (`fstate = 3`) and does not load 500. -/
theorem C5_rearmDelay_pressed_not_blinkOff :
    exRearm.fstate = 7 ∧ (sensed btnDown exRearm).buttonstate = 1 ∧
    (tick btnDown exRearm).fstate = 7 ∧ (tick btnDown exRearm).fstate ≠ 3 ∧
    (tick btnDown exRearm).ftimeout = 49 ∧ (tick btnDown exRearm).ftimeout ≠ 500 := by
  decide

/-- C5 (amended): on a tick whose debounced button state is pressed, the transition to
BlinkOff (`fstate = 3`) with countdown 500, lamp OFF and debug flag cleared is taken from
DebugDelay (`fstate = 6`).  RearmDelay (`fstate = 7`) does not look at the button: while
its countdown (after this tick's decrement) is non-zero the state is held, the flashlight
step changes nothing, and when the countdown is zero LongOnHold (`fstate = 8`) is entered
with countdown 2000 and the lamp ON. -/
theorem C5_pressed_in_debugDelay_and_rearmDelay (i : Pins) (s : State)
    (hb : (sensed i s).buttonstate = 1) :
    (s.fstate = 6 →
      (tick i s).fstate = 3 ∧ (tick i s).ftimeout = 500 ∧
      lampOn (tick i s) = false ∧ debugFlag (tick i s) = false) ∧
    (s.fstate = 7 → (sensed i s).ftimeout ≠ 0 →
      flashStep (sensed i s) = sensed i s ∧
      (tick i s).fstate = 7 ∧ (tick i s).ftimeout = s.ftimeout - 1 ∧
      lampOn (tick i s) = lampOn s ∧ debugFlag (tick i s) = debugFlag s) ∧
    (s.fstate = 7 → (sensed i s).ftimeout = 0 →
      (tick i s).fstate = 8 ∧ (tick i s).ftimeout = 2000 ∧ lampOn (tick i s) = true) := by
  refine ⟨fun h => ?_, fun h ht => ?_, fun h ht => ?_⟩
  · have hf := flashStep_debug_pressed (sensed i s) (by rw [sensed_fstate, h]) hb
    refine ⟨by rw [tick_fstate, hf], by rw [tick_ftimeout, hf], ?_, ?_⟩
    · rw [tick_lampOn, hf]
      show ((sensed i s).PB &&& 0x77).testBit 3 = false
      simp +decide
    · rw [tick_debugFlag, hf]
      show (!((sensed i s).PA ||| 0x40).testBit 6) = false
      simp +decide
  · have hf := flashStep_rearm_running (sensed i s) (by rw [sensed_fstate, h]) ht
    obtain ⟨g1, g2, g3, g4⟩ := hold_tick i s hf
    exact ⟨hf, by rw [g1, h], g2, g3, g4⟩
  · have hf := flashStep_rearm_expired (sensed i s) (by rw [sensed_fstate, h]) ht
    refine ⟨by rw [tick_fstate, hf], by rw [tick_ftimeout, hf], ?_⟩
    rw [tick_lampOn, hf]
    show ((sensed i s).PB ||| 0b01101101).testBit 3 = true
    simp +decide

/-- Witness for C5 (amended): the button is debounced as pressed in `exDebug` (DebugDelay),
in `exRearm` (RearmDelay, countdown running) and in `exRearmLast` (RearmDelay, last tick). -/
theorem C5_pressed_in_debugDelay_and_rearmDelay_witness :
    ((sensed btnDown exDebug).buttonstate = 1 ∧ exDebug.fstate = 6 ∧
      (sensed btnDown exRearm).buttonstate = 1 ∧ exRearm.fstate = 7 ∧
      (sensed btnDown exRearm).ftimeout ≠ 0 ∧
      (sensed btnDown exRearmLast).buttonstate = 1 ∧ exRearmLast.fstate = 7 ∧
      (sensed btnDown exRearmLast).ftimeout = 0) ∧
    ((tick btnDown exDebug).fstate = 3 ∧ (tick btnDown exDebug).ftimeout = 500 ∧
      lampOn (tick btnDown exDebug) = false ∧ debugFlag (tick btnDown exDebug) = false) ∧
    (flashStep (sensed btnDown exRearm) = sensed btnDown exRearm ∧
      (tick btnDown exRearm).fstate = 7 ∧ (tick btnDown exRearm).ftimeout = exRearm.ftimeout - 1 ∧
      lampOn (tick btnDown exRearm) = lampOn exRearm ∧
      debugFlag (tick btnDown exRearm) = debugFlag exRearm) ∧
    ((tick btnDown exRearmLast).fstate = 8 ∧ (tick btnDown exRearmLast).ftimeout = 2000 ∧
      lampOn (tick btnDown exRearmLast) = true) :=
  ⟨by decide,
   (C5_pressed_in_debugDelay_and_rearmDelay btnDown exDebug (by decide)).1 (by decide),
   (C5_pressed_in_debugDelay_and_rearmDelay btnDown exRearm (by decide)).2.1 (by decide)
     (by decide),
   (C5_pressed_in_debugDelay_and_rearmDelay btnDown exRearmLast (by decide)).2.2 (by decide)
     (by decide)⟩

/-- C6 (counterexample): `exDebug` is in DebugDelay (`fstate = 6`) with the lamp on; on a
tick that debounces the button as pressed while the countdown is still non-zero (39999) -
a combination that is not a row of the section 4.2 table - the state machine leaves for
BlinkOff (`fstate = 3`), reloads the countdown with 500 and switches the lamp off. -/
theorem C6_debugDelay_pressed_does_not_hold :
    exDebug.fstate = 6 ∧ (sensed btnDown exDebug).buttonstate = 1 ∧
    (sensed btnDown exDebug).ftimeout = 39999 ∧ specRow 6 true false = false ∧
    (tick btnDown exDebug).fstate = 3 ∧ (tick btnDown exDebug).ftimeout = 500 ∧
    lampOn exDebug = true ∧ lampOn (tick btnDown exDebug) = false := by
  decide

/-- C6 (amended): for every FlashlightState and every combination of debounced button
(released 0 / pressed 1) and countdown (zero / non-zero after this tick's decrement) that
is not a row of the section 4.2 table, except DebugDelay with the button pressed, the
flashlight step is the identity: the tick leaves `fstate` unchanged, leaves the lamp
output and the debug line as they were, and leaves the countdown at its value
decremented by one (held at zero). -/
theorem C6_unlisted_combinations_hold (i : Pins) (s : State)
    (hb : (sensed i s).buttonstate = 0 ∨ (sensed i s).buttonstate = 1)
    (hrow : specRow s.fstate (decide ((sensed i s).buttonstate = 1))
      (decide ((sensed i s).ftimeout = 0)) = false)
    (hdbg : ¬ (s.fstate = 6 ∧ (sensed i s).buttonstate = 1)) :
    flashStep (sensed i s) = sensed i s ∧
    (tick i s).fstate = s.fstate ∧ (tick i s).ftimeout = s.ftimeout - 1 ∧
    lampOn (tick i s) = lampOn s ∧ debugFlag (tick i s) = debugFlag s := by
  have hf : flashStep (sensed i s) = sensed i s :=
    flashStep_hold (sensed i s) hb (by rw [sensed_fstate]; exact hrow)
      (by rw [sensed_fstate]; exact hdbg)
  exact ⟨hf, hold_tick i s hf⟩

/-- Witness for C6 (amended): Off with the button released (the power-on state with the
button pin high) is not a row of the table. -/
theorem C6_unlisted_combinations_hold_witness :
    ((sensed btnUp powerOn).buttonstate = 0 ∧
      specRow powerOn.fstate (decide ((sensed btnUp powerOn).buttonstate = 1))
        (decide ((sensed btnUp powerOn).ftimeout = 0)) = false ∧
      ¬ (powerOn.fstate = 6 ∧ (sensed btnUp powerOn).buttonstate = 1)) ∧
    (flashStep (sensed btnUp powerOn) = sensed btnUp powerOn ∧
      (tick btnUp powerOn).fstate = powerOn.fstate ∧
      (tick btnUp powerOn).ftimeout = powerOn.ftimeout - 1 ∧
      lampOn (tick btnUp powerOn) = lampOn powerOn ∧
      debugFlag (tick btnUp powerOn) = debugFlag powerOn) :=
  ⟨by decide,
   C6_unlisted_combinations_hold btnUp powerOn (by decide) (by decide) (by decide)⟩

/-! ## The synchronisation state machine and the counters -/

theorem syncStep_listen_edge (d : State) (h : d.dstate = 0) (ht : d.dtimeout ≠ 0)
    (he : d.IRrecstate = 0x01) :
    syncStep d = { d with dstate := 4, ttimeout := 65535, dtimeout := 50 } := by
  simp [syncStep, h, ht, he]

theorem syncStep_ttimeout (d : State) :
    (syncStep d).ttimeout =
      if (d.dstate = 0 ∨ d.dstate = 3) ∧ d.dtimeout ≠ 0 ∧ d.IRrecstate = 0x01 then 65535
      else d.ttimeout := by
  unfold syncStep startPulse stopPulse
  split <;> (repeat' split) <;> simp_all

theorem tick_ttimeout (i : Pins) (s : State) :
    (tick i s).ttimeout = if refreshes i s = true then 65535 else s.ttimeout - 1 := by
  rw [tick_eq, ledStage_ttimeout, syncStep_ttimeout, flashStep_dstate, flashStep_dtimeout,
    flashStep_IRrecstate, flashStep_ttimeout, sensed_ttimeout]
  simp [refreshes]

theorem tick_pattern (i : Pins) (s : State) :
    (tick i s).pattern =
      if (s.pattern + 1) % 65536 ≥ 6144 then 0 else (s.pattern + 1) % 65536 := by
  rw [tick_eq, ledStage_pattern, syncStep_pattern, flashStep_pattern]
  rfl


theorem tick_dstate (i : Pins) (s : State) :
    (tick i s).dstate = (syncStep (flashStep (sensed i s))).dstate := by
  rw [tick_eq, ledStage_dstate]

theorem tick_dtimeout (i : Pins) (s : State) :
    (tick i s).dtimeout = (syncStep (flashStep (sensed i s))).dtimeout := by
  rw [tick_eq, ledStage_dtimeout]

/-- C7 (counterexample): `exListenLast` is in Listen (`dstate = 0`) with countdown 1; on a
tick whose debounced IR code is rising-edge (1) the countdown reaches zero first, so the
sync engine enters TransmitPrimary (`dstate = 1`, countdown 10) and TogetherTimeout stays
0: no TransmitAfterRecv, no 65535. -/
theorem C7_listen_edge_on_last_tick :
    exListenLast.dstate = 0 ∧ (sensed irActive exListenLast).IRrecstate = 1 ∧
    (sensed irActive exListenLast).dtimeout = 0 ∧
    (tick irActive exListenLast).dstate = 1 ∧ (tick irActive exListenLast).dstate ≠ 4 ∧
    (tick irActive exListenLast).dtimeout = 10 ∧
    (tick irActive exListenLast).ttimeout = 0 ∧ (tick irActive exListenLast).ttimeout ≠ 65535 := by
  decide

/-- C7 (amended): for every state with SyncState Listen (`dstate = 0`), a tick on which the
debounced IR code is rising-edge (1) and the sync countdown is still non-zero after this
tick's decrement moves the sync engine to TransmitAfterRecv (`dstate = 4`) with its
countdown set to 50 and sets TogetherTimeout to 65535. -/
theorem C7_listen_rising_edge (i : Pins) (s : State) (h : s.dstate = 0)
    (he : (sensed i s).IRrecstate = 0x01) (ht : (sensed i s).dtimeout ≠ 0) :
    (tick i s).dstate = 4 ∧ (tick i s).dtimeout = 50 ∧ (tick i s).ttimeout = 65535 := by
  have hs := syncStep_listen_edge (flashStep (sensed i s))
    (by rw [flashStep_dstate, sensed_dstate, h]) (by rw [flashStep_dtimeout]; exact ht)
    (by rw [flashStep_IRrecstate]; exact he)
  refine ⟨by rw [tick_dstate, hs], by rw [tick_dtimeout, hs], ?_⟩
  rw [tick_eq, ledStage_ttimeout, hs]

/-- Witness for C7 (amended): `exListen` with the IR receiver pin low: the fifth active
sample makes the IR code rising-edge, the countdown is 19999. -/
theorem C7_listen_rising_edge_witness :
    (exListen.dstate = 0 ∧ (sensed irActive exListen).IRrecstate = 0x01 ∧
      (sensed irActive exListen).dtimeout ≠ 0) ∧
    ((tick irActive exListen).dstate = 4 ∧ (tick irActive exListen).dtimeout = 50 ∧
      (tick irActive exListen).ttimeout = 65535) :=
  ⟨by decide, C7_listen_rising_edge irActive exListen (by decide) (by decide) (by decide)⟩

theorem idle_no_refresh (i : Pins) (s : State) (hi : i.pa7 = true)
    (hsh : s.IRrecshift = 0xff) (hst : s.IRrecstate = 0) : refreshes i s = false := by
  unfold refreshes
  rw [(sensed_IR_idle i s hi hsh hst).2]
  simp

theorem idle_run (inp : Nat → Pins) (s : State) (hi : ∀ j, (inp j).pa7 = true)
    (hsh : s.IRrecshift = 0xff) (hst : s.IRrecstate = 0) (k : Nat) :
    (runTicks inp s k).IRrecshift = 0xff ∧ (runTicks inp s k).IRrecstate = 0 := by
  induction k with
  | zero => exact ⟨hsh, hst⟩
  | succ k ih =>
    rw [runTicks_succ, tick_IRrecshift, tick_IRrecstate]
    exact sensed_IR_idle (inp k) _ (hi k) ih.1 ih.2

theorem runTicks_const_add (i : Pins) (s : State) (m k : Nat) :
    runTicks (fun _ => i) s (m + k) = runTicks (fun _ => i) (runTicks (fun _ => i) s m) k := by
  induction k with
  | zero => rfl
  | succ k ih =>
    show tick i (runTicks (fun _ => i) s (m + k)) = tick i _
    rw [ih]

/-- After the tick that registered the edge, quiet inputs never refresh TogetherTimeout: the
engine is deaf while the IR code still reads rising-edge, and the code is idle from the
sixth tick on. -/
theorem quiet_exTogether_no_refresh (j : Nat) :
    refreshes (quiet j) (runTicks quiet exTogether j) = false := by
  by_cases hj : j < 8
  · interval_cases j <;> decide
  · obtain ⟨m, rfl⟩ : ∃ m, j = 8 + m := ⟨j - 8, by omega⟩
    have h8 : (runTicks quiet exTogether 8).IRrecshift = 0xff ∧
        (runTicks quiet exTogether 8).IRrecstate = 0 := by decide
    have hrun := idle_run quiet (runTicks quiet exTogether 8) (fun _ => rfl) h8.1 h8.2 m
    have hadd : runTicks quiet exTogether (8 + m) = runTicks quiet (runTicks quiet exTogether 8) m :=
      runTicks_const_add btnUp exTogether 8 m
    rw [hadd]
    exact idle_no_refresh _ _ rfl hrun.1 hrun.2

/-- Without a refresh TogetherTimeout loses one per tick and stops at zero. -/
theorem ttimeout_run (inp : Nat → Pins) (s : State) (k : Nat)
    (hq : ∀ j < k, refreshes (inp j) (runTicks inp s j) = false) :
    (runTicks inp s k).ttimeout = s.ttimeout - k := by
  induction k with
  | zero => rfl
  | succ k ih =>
    rw [runTicks_succ, tick_ttimeout, hq k (by omega), ih (fun j hj => hq j (by omega))]
    simp
    omega

/-- C8: let `s` be the state after a tick that set TogetherTimeout to 65535, and let no
tick among the next `k` refresh it (no rising edge registered in Listen or ListenPassive).
Then TogetherTimeout after these `k` ticks is `65535 - k` (truncated at 0): non-zero for
every `k ≤ 65534`, zero for `k = 65535` and zero for every later `k`. -/
theorem C8_together_timeout_expiry (inp : Nat → Pins) (s : State) (k : Nat)
    (h : s.ttimeout = 65535)
    (hq : ∀ j < k, refreshes (inp j) (runTicks inp s j) = false) :
    (runTicks inp s k).ttimeout = 65535 - k ∧
    (k ≤ 65534 → (runTicks inp s k).ttimeout ≠ 0) ∧
    (65535 ≤ k → (runTicks inp s k).ttimeout = 0) := by
  have hr := ttimeout_run inp s k hq
  rw [h] at hr
  refine ⟨hr, fun hk => ?_, fun hk => ?_⟩ <;> rw [hr] <;> omega

/-- Witness for C8: `exTogether` is the state after the tick of `exListen` that registers a
rising edge; with quiet inputs afterwards no tick refreshes TogetherTimeout, which is
non-zero after 65534 ticks and zero after 65535 and after 65536 ticks. -/
theorem C8_together_timeout_expiry_witness :
    (exTogether = tick irActive exListen ∧ exTogether.ttimeout = 65535 ∧
      ∀ j < 65536, refreshes (quiet j) (runTicks quiet exTogether j) = false) ∧
    (runTicks quiet exTogether 65534).ttimeout ≠ 0 ∧
    (runTicks quiet exTogether 65535).ttimeout = 0 ∧
    (runTicks quiet exTogether 65536).ttimeout = 0 :=
  ⟨⟨by decide, by decide, fun j _ => quiet_exTogether_no_refresh j⟩,
   (C8_together_timeout_expiry quiet exTogether 65534 (by decide)
      (fun j _ => quiet_exTogether_no_refresh j)).2.1 (by decide),
   (C8_together_timeout_expiry quiet exTogether 65535 (by decide)
      (fun j _ => quiet_exTogether_no_refresh j)).2.2 (by decide),
   (C8_together_timeout_expiry quiet exTogether 65536 (by decide)
      (fun j _ => quiet_exTogether_no_refresh j)).2.2 (by decide)⟩

/-- From power-on the pattern counter is the tick count modulo 6144. -/
theorem pattern_run (inp : Nat → Pins) (k : Nat) :
    (runTicks inp powerOn k).pattern = k % 6144 := by
  induction k with
  | zero => rfl
  | succ k ih =>
    rw [runTicks_succ, tick_pattern, ih]
    split <;> omega

/-- C9: whatever the inputs and the rest of the state, the pattern counter after a tick is
in [0,6143]; it is `p + 1` when the value before was `p < 6143` and 0 when it was 6143.
From power-on the counter after `k` ticks is `k mod 6144`. -/
theorem C9_pattern_counter (inp : Nat → Pins) (i : Pins) (s : State) (k : Nat) :
    (tick i s).pattern < 6144 ∧
    (s.pattern < 6143 → (tick i s).pattern = s.pattern + 1) ∧
    (s.pattern = 6143 → (tick i s).pattern = 0) ∧
    (runTicks inp powerOn k).pattern = k % 6144 := by
  refine ⟨?_, fun h => ?_, fun h => ?_, pattern_run inp k⟩ <;> rw [tick_pattern] <;>
    split <;> omega

/-- Witness for C9: the power-on state (counter 0) and `exWrap` (counter 6143). -/
theorem C9_pattern_counter_witness :
    (powerOn.pattern < 6143 ∧ exWrap.pattern = 6143) ∧
    ((tick btnUp powerOn).pattern = powerOn.pattern + 1 ∧ (tick btnUp exWrap).pattern = 0) :=
  ⟨by decide, (C9_pattern_counter quiet btnUp powerOn 0).2.1 (by decide),
    (C9_pattern_counter quiet btnUp exWrap 0).2.2.1 (by decide)⟩

/-! ## The LED stage -/

theorem phase_lt (p : Nat) : (p >>> 9) &&& 0x0f < 16 :=
  Nat.and_lt_two_pow (p >>> 9) (n := 4) (by decide)

theorem ledNext_together (s : State) (ht : s.ttimeout ≠ 0) :
    ledsLit (ledNext s).PA_next (ledNext s).PB_next ≤ 1 ∧
    (11 < (s.pattern >>> 9) &&& 0x0f → ledsLit (ledNext s).PA_next (ledNext s).PB_next = 0) := by
  have hp := phase_lt s.pattern
  unfold ledNext
  rw [if_pos ht]
  unfold togetherColour R1_ON G1_ON B1_ON R2_ON G2_ON B2_ON
  dsimp only
  split <;> (try split) <;>
    (refine ⟨?_, fun h => ?_⟩ <;> first
      | (exfalso; omega)
      | simp +decide [ledsLit, ledLow])

theorem ledNext_alone (s : State) (ht : ¬ s.ttimeout ≠ 0) :
    ledsLit (ledNext s).PA_next (ledNext s).PB_next ≤ 2 := by
  unfold ledNext
  rw [if_neg ht]
  unfold aloneColour R1_ON G1_ON B1_ON R2_ON G2_ON B2_ON
  dsimp only
  split <;> (try split) <;> simp +decide [ledsLit, ledLow]


/-- C10: when the flashlight is off the LED stage commits `PA_next` and `PB_next`, and for
every pattern counter value, TogetherTimeout and prior port values these assert (drive
low) at most two of the six colour-LED lines PA0, PA4, PB0, PB2, PB5, PB6; at most one
when TogetherTimeout is non-zero, and none when in addition the phase
`(pattern >> 9) & 0xF` is outside 0..11. -/
theorem C10_led_lines_asserted (s : State) (hoff : lampOn s = false) :
    ((ledStage s).PA = (ledNext s).PA_next ∧ (ledStage s).PB = (ledNext s).PB_next) ∧
    ledsLit (ledStage s).PA (ledStage s).PB ≤ 2 ∧
    (s.ttimeout ≠ 0 → ledsLit (ledStage s).PA (ledStage s).PB ≤ 1) ∧
    (s.ttimeout ≠ 0 → 11 < (s.pattern >>> 9) &&& 0x0f →
      ledsLit (ledStage s).PA (ledStage s).PB = 0) := by
  have hc : (ledStage s).PA = (ledNext s).PA_next ∧ (ledStage s).PB = (ledNext s).PB_next := by
    unfold ledStage
    rw [if_pos ((lampOff_iff s).2 hoff)]
    exact ⟨rfl, rfl⟩
  rw [hc.1, hc.2]
  refine ⟨⟨rfl, rfl⟩, ?_, fun ht => (ledNext_together s ht).1,
    fun ht hp => (ledNext_together s ht).2 hp⟩
  by_cases ht : s.ttimeout ≠ 0
  · exact Nat.le_succ_of_le (ledNext_together s ht).1
  · exact ledNext_alone s ht

/-- Witness for C10: the power-on state (alone), `exTogether` (together, phase 0) and
`exStray` (together, phase 13), all with the flashlight off. -/
theorem C10_led_lines_asserted_witness :
    (lampOn powerOn = false ∧ lampOn exTogether = false ∧ exTogether.ttimeout ≠ 0 ∧
      lampOn exStray = false ∧ exStray.ttimeout ≠ 0 ∧ 11 < (exStray.pattern >>> 9) &&& 0x0f) ∧
    ledsLit (ledStage powerOn).PA (ledStage powerOn).PB ≤ 2 ∧
    ledsLit (ledStage exTogether).PA (ledStage exTogether).PB ≤ 1 ∧
    ledsLit (ledStage exStray).PA (ledStage exStray).PB = 0 :=
  ⟨by decide, (C10_led_lines_asserted powerOn (by decide)).2.1,
    (C10_led_lines_asserted exTogether (by decide)).2.2.1 (by decide),
    (C10_led_lines_asserted exStray (by decide)).2.2.2 (by decide) (by decide)⟩

theorem phase_eq (p : Nat) : (p >>> 9) &&& 0x0f = p / 512 % 16 := by
  rw [Nat.shiftRight_eq_div_pow]
  exact Nat.and_pow_two_sub_one_eq_mod (p / 2 ^ 9) 4

theorem subphase_eq (p : Nat) : p &&& 1 = p % 2 := Nat.and_one_is_mod p

theorem ledStage_off (s : State) (hoff : lampOn s = false) :
    (ledStage s).PA = (ledNext s).PA_next ∧ (ledStage s).PB = (ledNext s).PB_next := by
  unfold ledStage
  rw [if_pos ((lampOff_iff s).2 hoff)]
  exact ⟨rfl, rfl⟩

theorem togetherColour_eq (p : Nat) (n : Next) :
    togetherColour p n = applyColour (specColour ((p >>> 9) &&& 0x0f) (p &&& 1)) n := by
  unfold togetherColour
  dsimp only
  rw [phase_eq, subphase_eq]
  have h16 : p / 512 % 16 < 16 := Nat.mod_lt _ (by decide)
  have h2 : p % 2 < 2 := Nat.mod_lt _ (by decide)
  generalize p / 512 % 16 = ph at *
  generalize p % 2 = sb at *
  interval_cases ph <;> interval_cases sb <;> rfl

theorem low_ledBase (pa pb : Nat) (l : Led) :
    l.low (ledBase pa pb).PA_next (ledBase pa pb).PB_next = false := by
  cases l <;> simp +decide [Led.low, ledBase]

theorem low_on_ledBase (pa pb : Nat) (l k : Led) :
    l.low (k.on (ledBase pa pb)).PA_next (k.on (ledBase pa pb)).PB_next = decide (k = l) := by
  cases l <;> cases k <;>
    simp +decide [Led.low, Led.on, ledBase, R1_ON, G1_ON, B1_ON, R2_ON, G2_ON, B2_ON]

theorem low_applyColour (pa pb : Nat) (c : Option Led) (l : Led) :
    l.low (applyColour c (ledBase pa pb)).PA_next (applyColour c (ledBase pa pb)).PB_next =
      decide (c = some l) := by
  cases c with
  | none => simpa [applyColour] using low_ledBase pa pb l
  | some k => simpa [applyColour] using low_on_ledBase pa pb l k

theorem ledsLit_eq (pa pb : Nat) :
    ledsLit pa pb = (if Led.R1.low pa pb then 1 else 0) + (if Led.B1.low pa pb then 1 else 0) +
      (if Led.G1.low pa pb then 1 else 0) + (if Led.G2.low pa pb then 1 else 0) +
      (if Led.R2.low pa pb then 1 else 0) + (if Led.B2.low pa pb then 1 else 0) := by
  unfold ledsLit ledLow Led.low
  cases pa.testBit 0 <;> cases pa.testBit 4 <;> cases pb.testBit 0 <;> cases pb.testBit 2 <;>
    cases pb.testBit 5 <;> cases pb.testBit 6 <;> rfl

theorem specColour_facts (ph sb : Nat) (hph : ph ≤ 11) (hsb : sb < 2) :
    (specColour ph sb = none ↔
      sb = 0 ∧ (ph = 0 ∨ ph = 3 ∨ ph = 4 ∨ ph = 7 ∨ ph = 8 ∨ ph = 11)) ∧
    (∀ l, specColour ph sb = some l → l.package = if ph % 2 = 0 then 1 else 2) := by
  interval_cases ph <;> interval_cases sb <;> decide

theorem window_iff (p : Nat) : p &&& 0x07f8 = 0x0400 ↔ p / 8 % 256 = 128 := by
  constructor
  · intro h
    have hb : ∀ i, (p.testBit i && Nat.testBit 0x07f8 i) = Nat.testBit 0x0400 i := by
      intro i
      rw [← Nat.testBit_and, h]
    have h3 := hb 3
    have h4 := hb 4
    have h5 := hb 5
    have h6 := hb 6
    have h7 := hb 7
    have h8 := hb 8
    have h9 := hb 9
    have h10 := hb 10
    simp +decide [Nat.testBit_to_div_mod] at h3 h4 h5 h6 h7 h8 h9 h10
    omega
  · intro h
    apply Nat.eq_of_testBit_eq
    intro i
    rw [Nat.testBit_and]
    by_cases hi : i < 11
    · interval_cases i <;> simp +decide [Nat.testBit_to_div_mod] <;> omega
    · have h1 : Nat.testBit 0x07f8 i = false :=
        Nat.testBit_lt_two_pow (Nat.lt_of_lt_of_le (by decide : 0x07f8 < 2 ^ 11)
          (Nat.pow_le_pow_right (by decide) (by omega)))
      have h2 : Nat.testBit 0x0400 i = false :=
        Nat.testBit_lt_two_pow (Nat.lt_of_lt_of_le (by decide : 0x0400 < 2 ^ 11)
          (Nat.pow_le_pow_right (by decide) (by omega)))
      rw [h1, h2, Bool.and_false]


theorem aloneColour_eq (p : Nat) (n : Next) :
    aloneColour p n =
      if p &&& 0x07f8 = 0x0400 then applyFlash (specFlash (p &&& 3)) n else n := by
  unfold aloneColour
  split
  · split <;> rename_i h <;> simp [specFlash, applyFlash, Led.on, h]
  · rfl

theorem and_three (p : Nat) : p &&& 3 = p % 4 := Nat.and_pow_two_sub_one_eq_mod p 2

theorem low_applyFlash (pa pb q : Nat) (l : Led) :
    l.low (applyFlash (specFlash q) (ledBase pa pb)).PA_next
      (applyFlash (specFlash q) (ledBase pa pb)).PB_next = decide (l ∈ specFlash q) := by
  unfold specFlash
  split <;> cases l <;>
    simp +decide [applyFlash, Led.low, Led.on, ledBase, R1_ON, G1_ON, B1_ON, R2_ON, G2_ON, B2_ON]

theorem ledNext_eq (s : State) :
    ledNext s =
      if s.ttimeout ≠ 0 then
        applyColour (specColour ((s.pattern >>> 9) &&& 0x0f) (s.pattern &&& 1)) (ledBase s.PA s.PB)
      else if s.pattern &&& 0x07f8 = 0x0400 then
        applyFlash (specFlash (s.pattern &&& 3)) (ledBase s.PA s.PB)
      else ledBase s.PA s.PB := by
  unfold ledNext
  dsimp only
  rw [togetherColour_eq, aloneColour_eq]
  rfl

/-- C11: with TogetherTimeout non-zero and the flashlight off, for every pattern value in
[0,6143] the phase `(pattern >> 9) & 0xF` is in 0..11 and the committed port values
assert exactly the LED the documented colour table `specColour` names for (phase,
subphase): every LED line is low if and only if it is that LED.  So exactly one LED is
asserted, except that none is for subphase 0 of the phases 0, 3, 4, 7, 8, 11; and the
asserted LED is on RGB package 1 in every even phase and on package 2 in every odd one. -/
theorem C11_together_colour_table (s : State) (hoff : lampOn s = false)
    (ht : s.ttimeout ≠ 0) (hp : s.pattern < 6144) :
    (s.pattern >>> 9) &&& 0x0f ≤ 11 ∧
    (∀ l : Led, l.low (ledStage s).PA (ledStage s).PB =
      decide (specColour ((s.pattern >>> 9) &&& 0x0f) (s.pattern &&& 1) = some l)) ∧
    ledsLit (ledStage s).PA (ledStage s).PB =
      (if specColour ((s.pattern >>> 9) &&& 0x0f) (s.pattern &&& 1) = none then 0 else 1) ∧
    (specColour ((s.pattern >>> 9) &&& 0x0f) (s.pattern &&& 1) = none ↔
      s.pattern &&& 1 = 0 ∧
        ((s.pattern >>> 9) &&& 0x0f = 0 ∨ (s.pattern >>> 9) &&& 0x0f = 3 ∨
         (s.pattern >>> 9) &&& 0x0f = 4 ∨ (s.pattern >>> 9) &&& 0x0f = 7 ∨
         (s.pattern >>> 9) &&& 0x0f = 8 ∨ (s.pattern >>> 9) &&& 0x0f = 11)) ∧
    (∀ l : Led, specColour ((s.pattern >>> 9) &&& 0x0f) (s.pattern &&& 1) = some l →
      l.package = if ((s.pattern >>> 9) &&& 0x0f) % 2 = 0 then 1 else 2) := by
  have hph : (s.pattern >>> 9) &&& 0x0f ≤ 11 := by rw [phase_eq]; omega
  have hsb : s.pattern &&& 1 < 2 := by rw [subphase_eq]; omega
  obtain ⟨hA, hB⟩ := ledStage_off s hoff
  have hlow : ∀ l : Led, l.low (ledStage s).PA (ledStage s).PB =
      decide (specColour ((s.pattern >>> 9) &&& 0x0f) (s.pattern &&& 1) = some l) := by
    intro l
    rw [hA, hB, ledNext_eq, if_pos ht]
    exact low_applyColour s.PA s.PB _ l
  obtain ⟨hnone, hpack⟩ := specColour_facts _ _ hph hsb
  refine ⟨hph, hlow, ?_, hnone, hpack⟩
  rw [ledsLit_eq, hlow, hlow, hlow, hlow, hlow, hlow]
  cases specColour ((s.pattern >>> 9) &&& 0x0f) (s.pattern &&& 1) with
  | none => rfl
  | some k => cases k <;> rfl

/-- Witness for C11: `exGreen2` (pattern 513: phase 1, subphase 1) asserts G2 only. -/
theorem C11_together_colour_table_witness :
    (lampOn exGreen2 = false ∧ exGreen2.ttimeout ≠ 0 ∧ exGreen2.pattern < 6144) ∧
    ((exGreen2.pattern >>> 9) &&& 0x0f = 1 ∧ exGreen2.pattern &&& 1 = 1 ∧
      specColour 1 1 = some Led.G2) ∧
    (∀ l : Led, l.low (ledStage exGreen2).PA (ledStage exGreen2).PB =
      decide (specColour ((exGreen2.pattern >>> 9) &&& 0x0f) (exGreen2.pattern &&& 1) = some l)) :=
  ⟨by decide, by decide,
   (C11_together_colour_table exGreen2 (by decide) (by decide) (by decide)).2.1⟩


theorem otherLines_on (l : Led) (n : Next) :
    otherLines (l.on n).PA_next (l.on n).PB_next = otherLines n.PA_next n.PB_next := by
  cases l <;>
    simp only [otherLines, Led.on, R1_ON, G1_ON, B1_ON, R2_ON, G2_ON, B2_ON, Nat.testBit_and] <;>
    simp +decide [Nat.testBit_to_div_mod]

theorem otherLines_ledBase (pa pb : Nat) :
    otherLines (ledBase pa pb).PA_next (ledBase pa pb).PB_next = otherLines pa pb := by
  simp only [otherLines, ledBase, Nat.testBit_and, Nat.testBit_or]
  simp +decide [Nat.testBit_to_div_mod]

theorem otherLines_applyColour (c : Option Led) (n : Next) :
    otherLines (applyColour c n).PA_next (applyColour c n).PB_next =
      otherLines n.PA_next n.PB_next := by
  cases c with
  | none => rfl
  | some l => exact otherLines_on l n

theorem otherLines_applyFlash (ls : List Led) (n : Next) :
    otherLines (applyFlash ls n).PA_next (applyFlash ls n).PB_next =
      otherLines n.PA_next n.PB_next := by
  induction ls generalizing n with
  | nil => rfl
  | cons l ls ih =>
    show otherLines (applyFlash ls (l.on n)).PA_next (applyFlash ls (l.on n)).PB_next = _
    rw [ih, otherLines_on]

theorem otherLines_ledNext (s : State) :
    otherLines (ledNext s).PA_next (ledNext s).PB_next = otherLines s.PA s.PB := by
  rw [ledNext_eq]
  split
  · rw [otherLines_applyColour, otherLines_ledBase]
  · split
    · rw [otherLines_applyFlash, otherLines_ledBase]
    · exact otherLines_ledBase _ _

/-- C12: with TogetherTimeout zero and the flashlight off, for every pattern value in
[0,6143]: the flash condition `(pattern & 0x7F8) = 0x400` holds exactly in the windows
1024..1031, 3072..3079 and 5120..5127, that is at offsets 1024..1031 of each 2048-tick
period; outside a window no LED line is low; inside a window the low lines are exactly
those of `specFlash (pattern & 3)`: R1 and G2, G1 and B2, B1 and R2 (one LED on each
package), or none for index 3. -/
theorem C12_alone_flash_windows (s : State) (hoff : lampOn s = false)
    (ht : s.ttimeout = 0) (hp : s.pattern < 6144) :
    (s.pattern &&& 0x07f8 = 0x0400 ↔
      (1024 ≤ s.pattern ∧ s.pattern ≤ 1031) ∨ (3072 ≤ s.pattern ∧ s.pattern ≤ 3079) ∨
      (5120 ≤ s.pattern ∧ s.pattern ≤ 5127)) ∧
    (s.pattern &&& 0x07f8 = 0x0400 ↔
      1024 ≤ s.pattern % 2048 ∧ s.pattern % 2048 ≤ 1031) ∧
    (s.pattern &&& 0x07f8 ≠ 0x0400 →
      ∀ l : Led, l.low (ledStage s).PA (ledStage s).PB = false) ∧
    (s.pattern &&& 0x07f8 = 0x0400 →
      ∀ l : Led, l.low (ledStage s).PA (ledStage s).PB =
        decide (l ∈ specFlash (s.pattern &&& 3))) ∧
    ledsLit (ledStage s).PA (ledStage s).PB =
      (if s.pattern &&& 0x07f8 = 0x0400 then (specFlash (s.pattern &&& 3)).length else 0) ∧
    (∀ q, q < 3 → (specFlash q).map Led.package = [1, 2]) := by
  obtain ⟨hA, hB⟩ := ledStage_off s hoff
  have hout : s.pattern &&& 0x07f8 ≠ 0x0400 →
      ∀ l : Led, l.low (ledStage s).PA (ledStage s).PB = false := by
    intro hw l
    rw [hA, hB, ledNext_eq, if_neg (by simp [ht]), if_neg hw]
    exact low_ledBase _ _ l
  have hin : s.pattern &&& 0x07f8 = 0x0400 →
      ∀ l : Led, l.low (ledStage s).PA (ledStage s).PB =
        decide (l ∈ specFlash (s.pattern &&& 3)) := by
    intro hw l
    rw [hA, hB, ledNext_eq, if_neg (by simp [ht]), if_pos hw]
    exact low_applyFlash _ _ _ l
  refine ⟨?_, ?_, hout, hin, ?_, ?_⟩
  · rw [window_iff]; omega
  · rw [window_iff]; omega
  · rw [ledsLit_eq]
    by_cases hw : s.pattern &&& 0x07f8 = 0x0400
    · rw [if_pos hw, hin hw, hin hw, hin hw, hin hw, hin hw, hin hw]
      have h4 : s.pattern &&& 3 < 4 := by rw [and_three]; omega
      generalize s.pattern &&& 3 = q at h4
      interval_cases q <;> decide
    · rw [if_neg hw, hout hw, hout hw, hout hw, hout hw, hout hw, hout hw]
      rfl
  · intro q hq
    interval_cases q <;> rfl

/-- Witness for C12: `exFlash` (pattern 3073, inside a window, index 1) and the power-on
state (pattern 0, outside the windows). -/
theorem C12_alone_flash_windows_witness :
    (lampOn exFlash = false ∧ exFlash.ttimeout = 0 ∧ exFlash.pattern < 6144 ∧
      exFlash.pattern &&& 0x07f8 = 0x0400 ∧ exFlash.pattern &&& 3 = 1 ∧
      lampOn powerOn = false ∧ powerOn.ttimeout = 0 ∧ powerOn.pattern < 6144 ∧
      powerOn.pattern &&& 0x07f8 ≠ 0x0400) ∧
    (∀ l : Led, l.low (ledStage exFlash).PA (ledStage exFlash).PB =
        decide (l ∈ specFlash (exFlash.pattern &&& 3))) ∧
    (∀ l : Led, l.low (ledStage powerOn).PA (ledStage powerOn).PB = false) :=
  ⟨by decide,
   (C12_alone_flash_windows exFlash (by decide) (by decide) (by decide)).2.2.2.1 (by decide),
   (C12_alone_flash_windows powerOn (by decide) (by decide) (by decide)).2.2.1 (by decide)⟩

/-- C13: the values the LED stage computes, and hence the port values after the stage
whether it commits or not, agree with the prior port values on every output line that is
not a colour-LED line: PA bits 1, 2, 3, 5, 6 and PB bits 1, 3, 4. -/
theorem C13_led_stage_frame (s : State) :
    otherLines (ledNext s).PA_next (ledNext s).PB_next = otherLines s.PA s.PB ∧
    otherLines (ledStage s).PA (ledStage s).PB = otherLines s.PA s.PB := by
  refine ⟨otherLines_ledNext s, ?_⟩
  unfold ledStage
  split
  · exact otherLines_ledNext s
  · rfl

/-! ## The button debouncer -/

theorem shl_one_mod (b : Nat) : (b <<< 1) % 256 = 2 * (b % 128) := by
  rw [Nat.shiftLeft_eq]
  omega

theorem even_or_one (x : Nat) : 2 * x ||| 1 = 2 * x + 1 := by
  have := Nat.mul_add_lt_is_or (i := 1) (b := 1) (by decide) x
  simpa using this.symm

theorem sensed_buttonshift_up (i : Pins) (s : State) (hi : i.pb7 = true) :
    (sensed i s).buttonshift = 2 * (s.buttonshift % 128) + 1 := by
  have h7 : ((s.PB &&& 0x7f) ||| (if i.pb7 then 0x80 else 0x00)) &&& 0x80 ≠ 0 := by
    rw [hi]
    intro h
    have h' := (and_two_pow_eq_zero ((s.PB &&& 0x7f) ||| 0x80) 7).1 h
    simp +decide at h'
  show (if ((s.PB &&& 0x7f) ||| (if i.pb7 then 0x80 else 0x00)) &&& 0x80 ≠ 0
      then (s.buttonshift <<< 1) % 256 ||| 1 else (s.buttonshift <<< 1) % 256) = _
  rw [if_pos h7, shl_one_mod, even_or_one]

theorem pressingInv_step (i : Pins) (t : State) (k : Nat) (hi : i.pb7 = false)
    (hinv : pressingInv k t) : pressingInv (k + 1) (tick i t) := by
  obtain ⟨hA, hB⟩ := hinv
  have hsh := sensed_buttonshift_down i t hi
  rw [shl_one_mod] at hsh
  have hst := sensed_buttonstate i t
  unfold pressingInv
  rw [tick_buttonshift, tick_buttonstate, hst, hsh]
  by_cases hk : k ≤ 7
  · obtain ⟨h0, h1, h2⟩ := hA hk
    rw [h0]
    interval_cases k <;> simp at h1 h2 ⊢ <;> omega
  · obtain ⟨h0, h1⟩ := hB (by omega)
    rw [h1]
    refine ⟨fun h => absurd h (by omega), fun _ => by simp⟩

theorem releasingInv_step (i : Pins) (t : State) (k : Nat) (hi : i.pb7 = true)
    (hinv : releasingInv k t) : releasingInv (k + 1) (tick i t) := by
  obtain ⟨hA, hB⟩ := hinv
  have hsh := sensed_buttonshift_up i t hi
  have hst := sensed_buttonstate i t
  unfold releasingInv
  rw [tick_buttonshift, tick_buttonstate, hst, hsh]
  by_cases hk : k ≤ 7
  · obtain ⟨h0, h1, h2⟩ := hA hk
    rw [h0]
    interval_cases k <;> simp at h1 h2 ⊢ <;> omega
  · obtain ⟨h0, h1⟩ := hB (by omega)
    rw [h1]
    refine ⟨fun h => absurd h (by omega), fun _ => by simp⟩


theorem pressing_run (inp : Nat → Pins) (s : State) (n : Nat)
    (h0 : s.buttonstate = 0) (h1 : s.buttonshift % 2 = 1)
    (hin : ∀ j < n, (inp j).pb7 = false) (k : Nat) (hk : k ≤ n) :
    pressingInv k (runTicks inp s k) := by
  induction k with
  | zero => exact ⟨fun _ => ⟨h0, by simp [Nat.mod_one], by simpa using h1⟩, fun h => absurd h (by omega)⟩
  | succ k ih =>
    rw [runTicks_succ]
    exact pressingInv_step (inp k) _ k (hin k (by omega)) (ih (by omega))

theorem releasing_run (inp : Nat → Pins) (s : State) (n : Nat)
    (h0 : s.buttonstate = 1) (h1 : s.buttonshift % 2 = 0)
    (hin : ∀ j < n, (inp j).pb7 = true) (k : Nat) (hk : k ≤ n) :
    releasingInv k (runTicks inp s k) := by
  induction k with
  | zero => exact ⟨fun _ => ⟨h0, by simp [Nat.mod_one], by simpa using h1⟩, fun h => absurd h (by omega)⟩
  | succ k ih =>
    rw [runTicks_succ]
    exact releasingInv_step (inp k) _ k (hin k (by omega)) (ih (by omega))

/-- C14: start from any state whose debounced button is released (0) and whose most recent
raw sample is inactive (bit 0 of the history is 1) and feed `n` consecutive active raw
samples: the debounced button is still released after each of the first 7 ticks and
pressed after the 8th and after every later tick of the run.  Symmetrically, from
pressed (1) with the most recent sample active, `n` consecutive inactive samples leave
it pressed for 7 ticks and released from the 8th on. -/
theorem C14_button_debounce_runs (inp : Nat → Pins) (s : State) (n : Nat) :
    (s.buttonstate = 0 → s.buttonshift % 2 = 1 → (∀ j < n, (inp j).pb7 = false) →
      (∀ k, k ≤ 7 → k ≤ n → (runTicks inp s k).buttonstate = 0) ∧
      (∀ k, 8 ≤ k → k ≤ n → (runTicks inp s k).buttonstate = 1)) ∧
    (s.buttonstate = 1 → s.buttonshift % 2 = 0 → (∀ j < n, (inp j).pb7 = true) →
      (∀ k, k ≤ 7 → k ≤ n → (runTicks inp s k).buttonstate = 1) ∧
      (∀ k, 8 ≤ k → k ≤ n → (runTicks inp s k).buttonstate = 0)) := by
  refine ⟨fun h0 h1 hin => ⟨fun k hk7 hk => ?_, fun k hk8 hk => ?_⟩,
    fun h0 h1 hin => ⟨fun k hk7 hk => ?_, fun k hk8 hk => ?_⟩⟩
  · exact ((pressing_run inp s n h0 h1 hin k hk).1 hk7).1
  · exact ((pressing_run inp s n h0 h1 hin k hk).2 hk8).1
  · exact ((releasing_run inp s n h0 h1 hin k hk).1 hk7).1
  · exact ((releasing_run inp s n h0 h1 hin k hk).2 hk8).1

/-- Witness for C14: the power-on state with the button held for 20 ticks, and `exPressed`
(debounced as pressed, last sample active) with the button open for 20 ticks. -/
theorem C14_button_debounce_runs_witness :
    (powerOn.buttonstate = 0 ∧ powerOn.buttonshift % 2 = 1 ∧
      (∀ j < 20, (held j).pb7 = false) ∧
      exPressed.buttonstate = 1 ∧ exPressed.buttonshift % 2 = 0 ∧
      (∀ j < 20, (quiet j).pb7 = true)) ∧
    ((runTicks held powerOn 7).buttonstate = 0 ∧ (runTicks held powerOn 8).buttonstate = 1 ∧
      (runTicks held powerOn 20).buttonstate = 1) ∧
    ((runTicks quiet exPressed 7).buttonstate = 1 ∧ (runTicks quiet exPressed 8).buttonstate = 0 ∧
      (runTicks quiet exPressed 20).buttonstate = 0) :=
  ⟨⟨rfl, rfl, fun _ _ => rfl, by decide, by decide, fun _ _ => rfl⟩,
   ⟨((C14_button_debounce_runs held powerOn 20).1 rfl rfl (fun _ _ => rfl)).1 7 (by decide)
      (by decide),
    ((C14_button_debounce_runs held powerOn 20).1 rfl rfl (fun _ _ => rfl)).2 8 (by decide)
      (by decide),
    ((C14_button_debounce_runs held powerOn 20).1 rfl rfl (fun _ _ => rfl)).2 20 (by decide)
      (by decide)⟩,
   ⟨((C14_button_debounce_runs quiet exPressed 20).2 (by decide) (by decide)
      (fun _ _ => rfl)).1 7 (by decide) (by decide),
    ((C14_button_debounce_runs quiet exPressed 20).2 (by decide) (by decide)
      (fun _ _ => rfl)).2 8 (by decide) (by decide),
    ((C14_button_debounce_runs quiet exPressed 20).2 (by decide) (by decide)
      (fun _ _ => rfl)).2 20 (by decide) (by decide)⟩⟩

theorem buttonstate_held (i : Pins) (s : State)
    (h : (tick i s).buttonshift ≠ 0x00 ∧ (tick i s).buttonshift ≠ 0xff) :
    (tick i s).buttonstate = s.buttonstate := by
  rw [tick_buttonshift] at h
  rw [tick_buttonstate, sensed_buttonstate, if_neg h.1, if_neg h.2]

/-- C15: for every initial state and every raw sample sequence, if after none of the
first `k` ticks the history register holds 8 equal samples (`0x00` or `0xff`), then the
debounced button after `k` ticks equals its initial value. -/
theorem C15_no_uniform_history_no_change (inp : Nat → Pins) (s : State) (k : Nat)
    (h : ∀ j < k, (runTicks inp s (j + 1)).buttonshift ≠ 0x00 ∧
      (runTicks inp s (j + 1)).buttonshift ≠ 0xff) :
    (runTicks inp s k).buttonstate = s.buttonstate := by
  induction k with
  | zero => rfl
  | succ k ih =>
    have hk := h k (by omega)
    rw [runTicks_succ] at hk ⊢
    rw [buttonstate_held _ _ hk]
    exact ih (fun j hj => h j (by omega))

/-- A contact that changes level on every tick never fills the history with equal samples:
the two youngest samples always differ. -/
theorem bouncing_history (j : Nat) :
    (runTicks bouncing powerOn (j + 1)).buttonshift % 4 = if j % 2 = 0 then 2 else 1 := by
  induction j with
  | zero => decide
  | succ j ih =>
    rw [runTicks_succ, tick_buttonshift]
    by_cases hj : j % 2 = 0
    · rw [if_pos hj] at ih
      have hi : (bouncing (j + 1)).pb7 = true := by
        have : (j + 1) % 2 ≠ 0 := by omega
        simp [bouncing, this, btnUp]
      rw [sensed_buttonshift_up _ _ hi, if_neg (by omega)]
      omega
    · rw [if_neg hj] at ih
      have hi : (bouncing (j + 1)).pb7 = false := by
        have : (j + 1) % 2 = 0 := by omega
        simp [bouncing, this, btnDown]
      rw [sensed_buttonshift_down _ _ hi, shl_one_mod, if_pos (by omega)]
      omega

/-- Witness for C15: from power-on, 5000 ticks of a contact that changes level on every
tick. -/
theorem C15_no_uniform_history_no_change_witness :
    (∀ j < 5000, (runTicks bouncing powerOn (j + 1)).buttonshift ≠ 0x00 ∧
      (runTicks bouncing powerOn (j + 1)).buttonshift ≠ 0xff) ∧
    (runTicks bouncing powerOn 5000).buttonstate = powerOn.buttonstate :=
  ⟨fun j _ => by have := bouncing_history j; split at this <;> constructor <;> omega,
   C15_no_uniform_history_no_change bouncing powerOn 5000
     (fun j _ => by have := bouncing_history j; split at this <;> constructor <;> omega)⟩

/-! ## Independence of the two state machines -/

theorem or_and_lit (x a b : Nat) (h : a &&& b = a) : (x ||| a) &&& b = (x &&& b) ||| a := by
  rw [Nat.and_distrib_right, h]

theorem and_or_lit (x a b : Nat) (h : b &&& a = b) : (x &&& a) ||| b = (x ||| b) &&& a := by
  rw [Nat.and_distrib_right, h]

theorem and_and_swap (x a b : Nat) : (x &&& a) &&& b = (x &&& b) &&& a := by
  rw [Nat.and_assoc, Nat.and_comm a b, ← Nat.and_assoc]

theorem or_or_swap (x a b : Nat) : (x ||| a) ||| b = (x ||| b) ||| a := by
  rw [Nat.or_assoc, Nat.or_comm a b, ← Nat.or_assoc]

/-- The writes of `syncStep`, applied to the ports after a write of `flashStep`. -/
theorem port_writes_commute (x : Nat) :
    ((x ||| 17) &&& 119 = (x &&& 119) ||| 17 ∧ (x &&& 63) &&& 119 = (x &&& 119) &&& 63 ∧
     (x ||| 64) &&& 119 = (x &&& 119) ||| 64) ∧
    ((x ||| 17) ||| 8 = (x ||| 8) ||| 17 ∧ (x &&& 63) ||| 8 = (x ||| 8) &&& 63 ∧
     (x ||| 64) ||| 8 = (x ||| 8) ||| 64) ∧
    ((x ||| 109) &&& 111 = (x &&& 111) ||| 109 ∧ (x &&& 119) &&& 111 = (x &&& 111) &&& 119) :=
  ⟨⟨or_and_lit x 17 119 rfl, and_and_swap x 63 119, or_and_lit x 64 119 rfl⟩,
   ⟨or_or_swap x 17 8, and_or_lit x 63 8 rfl, or_or_swap x 64 8⟩,
   ⟨or_and_lit x 109 111 rfl, and_and_swap x 119 111⟩⟩

theorem flashStep_startPulse (x : State) (a b : Nat) :
    flashStep (startPulse { x with dstate := a, dtimeout := b }) =
      startPulse { flashStep x with dstate := a, dtimeout := b } := by
  obtain ⟨⟨e1, e2, e3⟩, -, -⟩ := port_writes_commute x.PA
  unfold flashStep startPulse
  dsimp only
  split <;> (repeat' split) <;> simp only [e1, e2, e3]

theorem flashStep_stopPulse (x : State) (a b : Nat) :
    flashStep (stopPulse { x with dstate := a, dtimeout := b }) =
      stopPulse { flashStep x with dstate := a, dtimeout := b } := by
  obtain ⟨-, ⟨e1, e2, e3⟩, -⟩ := port_writes_commute x.PA
  obtain ⟨-, -, ⟨e4, e5⟩⟩ := port_writes_commute x.PB
  unfold flashStep stopPulse
  dsimp only
  split <;> (repeat' split) <;> simp only [e1, e2, e3, e4, e5]

theorem flashStep_sync_fields (x : State) (a b c : Nat) :
    flashStep { x with dstate := a, dtimeout := b, ttimeout := c } =
      { flashStep x with dstate := a, dtimeout := b, ttimeout := c } := by
  unfold flashStep
  dsimp only
  split <;> (repeat' split) <;> rfl


theorem syncStep_cases (x : State) :
    syncStep x =
      if x.dstate = 0 then
        (if x.dtimeout = 0 then startPulse { x with dstate := 1, dtimeout := 10 }
         else if x.IRrecstate = 0x01 then { x with dstate := 4, dtimeout := 50, ttimeout := 65535 }
         else x)
      else if x.dstate = 1 then
        (if x.dtimeout = 0 then stopPulse { x with dstate := 2, dtimeout := 25 } else x)
      else if x.dstate = 2 then
        (if x.dtimeout = 0 then { x with dstate := 3, dtimeout := 100, ttimeout := x.ttimeout }
         else x)
      else if x.dstate = 3 then
        (if x.dtimeout = 0 then { x with dstate := 0, dtimeout := 30000, ttimeout := x.ttimeout }
         else if x.IRrecstate = 0x01 then
           { x with dstate := x.dstate, dtimeout := x.dtimeout, ttimeout := 65535 }
         else x)
      else if x.dstate = 4 then
        (if x.dtimeout = 0 then startPulse { x with dstate := 5, dtimeout := 10 } else x)
      else if x.dstate = 5 then
        (if x.dtimeout = 0 then stopPulse { x with dstate := 6, dtimeout := 75 } else x)
      else if x.dstate = 6 then
        (if x.dtimeout = 0 then { x with dstate := 0, dtimeout := 30000, ttimeout := x.ttimeout }
         else x)
      else x := by
  unfold syncStep
  split <;> simp_all

theorem steps_commute (d : State) : syncStep (flashStep d) = flashStep (syncStep d) := by
  rw [syncStep_cases (flashStep d), syncStep_cases d]
  simp only [flashStep_dstate, flashStep_dtimeout, flashStep_IRrecstate, flashStep_ttimeout]
  split_ifs <;>
    simp only [flashStep_startPulse, flashStep_stopPulse, flashStep_sync_fields, flashStep_dstate,
      flashStep_dtimeout, flashStep_IRrecstate, flashStep_ttimeout]


/-- C16: for every state (FSM states, countdowns, port values and debounced inputs
included), the flashlight step followed by the sync step yields the same state - every
field, in particular `fstate`, `dstate`, the three countdowns, `PA` and `PB` - as the sync
step followed by the flashlight step. -/
theorem C16_fsm_steps_commute (d : State) :
    syncStep (flashStep d) = flashStep (syncStep d) :=
  steps_commute d

theorem syncStep_dstate_eq (x : State) :
    (syncStep x).dstate =
      if x.dtimeout = 0 then
        (if x.dstate = 0 then 1 else if x.dstate = 1 then 2 else if x.dstate = 2 then 3
         else if x.dstate = 3 then 0 else if x.dstate = 4 then 5 else if x.dstate = 5 then 6
         else if x.dstate = 6 then 0 else x.dstate)
      else if x.dstate = 0 ∧ x.IRrecstate = 0x01 then 4 else x.dstate := by
  unfold syncStep startPulse stopPulse
  split <;> (repeat' split) <;> simp_all

theorem syncStep_dtimeout_eq (x : State) :
    (syncStep x).dtimeout =
      if x.dtimeout = 0 then
        (if x.dstate = 0 then 10 else if x.dstate = 1 then 25 else if x.dstate = 2 then 100
         else if x.dstate = 3 then 30000 else if x.dstate = 4 then 10 else if x.dstate = 5 then 75
         else if x.dstate = 6 then 30000 else x.dtimeout)
      else if x.dstate = 0 ∧ x.IRrecstate = 0x01 then 50 else x.dtimeout := by
  unfold syncStep startPulse stopPulse
  split <;> (repeat' split) <;> simp_all

theorem syncStep_TM2C_eq (x : State) :
    (syncStep x).TM2C =
      if x.dtimeout = 0 then
        (if x.dstate = 0 ∨ x.dstate = 4 then 0b00101100
         else if x.dstate = 1 ∨ x.dstate = 5 then 0 else x.TM2C)
      else x.TM2C := by
  unfold syncStep startPulse stopPulse
  split <;> (repeat' split) <;> simp_all

theorem syncStep_deaf (x y : State)
    (hd : x.dstate = 1 ∨ x.dstate = 2 ∨ x.dstate = 4 ∨ x.dstate = 5 ∨ x.dstate = 6)
    (h1 : y.dstate = x.dstate) (h2 : y.dtimeout = x.dtimeout) (h3 : y.ttimeout = x.ttimeout) :
    (syncStep y).dstate = (syncStep x).dstate ∧ (syncStep y).dtimeout = (syncStep x).dtimeout ∧
    (syncStep y).ttimeout = (syncStep x).ttimeout ∧ (syncStep x).ttimeout = x.ttimeout := by
  have h0 : x.dstate ≠ 0 := by omega
  have h3' : x.dstate ≠ 3 := by omega
  rw [syncStep_dstate_eq x, syncStep_dstate_eq y, syncStep_dtimeout_eq x, syncStep_dtimeout_eq y,
    syncStep_ttimeout x, syncStep_ttimeout y, h1, h2, h3]
  simp [h0, h3']

/-- C17: in the sync states TransmitPrimary (1), DeafShort (2), TransmitAfterRecv (4),
TransmitSecondary (5) and DeafLong (6), two ticks taken from states that differ only in the
IR history and IR edge code, with inputs that differ only in the IR receiver pin, end in
the same SyncState, sync countdown and TogetherTimeout; and TogetherTimeout is never
reloaded there: it is the previous value decremented (held at zero). -/
theorem C17_deaf_states_ignore_ir (i : Pins) (s : State) (p : Bool) (a b : Nat)
    (hd : s.dstate = 1 ∨ s.dstate = 2 ∨ s.dstate = 4 ∨ s.dstate = 5 ∨ s.dstate = 6) :
    (tick { i with pa7 := p } { s with IRrecshift := a, IRrecstate := b }).dstate =
      (tick i s).dstate ∧
    (tick { i with pa7 := p } { s with IRrecshift := a, IRrecstate := b }).dtimeout =
      (tick i s).dtimeout ∧
    (tick { i with pa7 := p } { s with IRrecshift := a, IRrecstate := b }).ttimeout =
      (tick i s).ttimeout ∧
    (tick i s).ttimeout = s.ttimeout - 1 ∧ refreshes i s = false := by
  have hx := syncStep_deaf (flashStep (sensed i s))
    (flashStep (sensed { i with pa7 := p } { s with IRrecshift := a, IRrecstate := b }))
    (by rw [flashStep_dstate, sensed_dstate]; exact hd)
    (by rw [flashStep_dstate, flashStep_dstate]; rfl)
    (by rw [flashStep_dtimeout, flashStep_dtimeout]; rfl)
    (by rw [flashStep_ttimeout, flashStep_ttimeout]; rfl)
  obtain ⟨g1, g2, g3, g4⟩ := hx
  refine ⟨by rw [tick_dstate, tick_dstate, g1], by rw [tick_dtimeout, tick_dtimeout, g2],
    by rw [tick_eq, tick_eq, ledStage_ttimeout, ledStage_ttimeout, g3], ?_, ?_⟩
  · rw [tick_eq, ledStage_ttimeout, g4, flashStep_ttimeout, sensed_ttimeout]
  · unfold refreshes
    rw [sensed_dstate]
    rcases hd with h | h | h | h | h <;> simp [h]

/-- Witness for C17: `exTogether` is in TransmitAfterRecv; the tick with an idle receiver is
compared with a tick from IR history `0xf0`, code idle and the receiver pin low (which, in
Listen, would register a rising edge). -/
theorem C17_deaf_states_ignore_ir_witness :
    (exTogether.dstate = 4) ∧
    ((tick { btnUp with pa7 := false } { exTogether with IRrecshift := 0xf0, IRrecstate := 0 }).dstate =
      (tick btnUp exTogether).dstate ∧
    (tick { btnUp with pa7 := false } { exTogether with IRrecshift := 0xf0, IRrecstate := 0 }).dtimeout =
      (tick btnUp exTogether).dtimeout ∧
    (tick { btnUp with pa7 := false } { exTogether with IRrecshift := 0xf0, IRrecstate := 0 }).ttimeout =
      (tick btnUp exTogether).ttimeout ∧
    (tick btnUp exTogether).ttimeout = exTogether.ttimeout - 1 ∧
    refreshes btnUp exTogether = false) :=
  ⟨rfl, C17_deaf_states_ignore_ir btnUp exTogether false 0xf0 0 (by decide)⟩

/-! ## The transmit cycle -/

theorem ledStage_TM2C (s : State) : (ledStage s).TM2C = s.TM2C := by
  unfold ledStage; split <;> rfl

theorem flashStep_TM2C (s : State) : (flashStep s).TM2C = s.TM2C := by
  unfold flashStep
  split <;> (repeat' split) <;> rfl

theorem tick_sync_view (i : Pins) (t : State) :
    (tick i t).dstate =
      (if t.dtimeout - 1 = 0 then
        (if t.dstate = 0 then 1 else if t.dstate = 1 then 2 else if t.dstate = 2 then 3
         else if t.dstate = 3 then 0 else if t.dstate = 4 then 5 else if t.dstate = 5 then 6
         else if t.dstate = 6 then 0 else t.dstate)
      else if t.dstate = 0 ∧ (sensed i t).IRrecstate = 0x01 then 4 else t.dstate) ∧
    (tick i t).dtimeout =
      (if t.dtimeout - 1 = 0 then
        (if t.dstate = 0 then 10 else if t.dstate = 1 then 25 else if t.dstate = 2 then 100
         else if t.dstate = 3 then 30000 else if t.dstate = 4 then 10 else if t.dstate = 5 then 75
         else if t.dstate = 6 then 30000 else t.dtimeout - 1)
      else if t.dstate = 0 ∧ (sensed i t).IRrecstate = 0x01 then 50 else t.dtimeout - 1) ∧
    (tick i t).TM2C =
      (if t.dtimeout - 1 = 0 then
        (if t.dstate = 0 ∨ t.dstate = 4 then 0b00101100
         else if t.dstate = 1 ∨ t.dstate = 5 then 0 else t.TM2C)
      else t.TM2C) := by
  refine ⟨?_, ?_, ?_⟩
  · rw [tick_dstate, syncStep_dstate_eq, flashStep_dstate, flashStep_dtimeout,
      flashStep_IRrecstate, sensed_dstate, sensed_dtimeout]
  · rw [tick_dtimeout, syncStep_dtimeout_eq, flashStep_dstate, flashStep_dtimeout,
      flashStep_IRrecstate, sensed_dstate, sensed_dtimeout]
  · rw [tick_eq, ledStage_TM2C, syncStep_TM2C_eq, flashStep_dstate, flashStep_dtimeout,
      flashStep_TM2C, sensed_dstate, sensed_dtimeout]
    rfl

theorem refreshes_false_iff (i : Pins) (t : State) :
    refreshes i t = false ↔
      ¬ ((t.dstate = 0 ∨ t.dstate = 3) ∧ t.dtimeout - 1 ≠ 0 ∧ (sensed i t).IRrecstate = 0x01) := by
  unfold refreshes
  rw [sensed_dstate, sensed_dtimeout]
  simp

theorem tick_sync_hold (i : Pins) (t : State) (h : t.dtimeout - 1 ≠ 0)
    (hne : ¬ (t.dstate = 0 ∧ (sensed i t).IRrecstate = 0x01)) :
    (tick i t).dstate = t.dstate ∧ (tick i t).dtimeout = t.dtimeout - 1 ∧
    (tick i t).TM2C = t.TM2C := by
  obtain ⟨v1, v2, v3⟩ := tick_sync_view i t
  rw [v1, v2, v3, if_neg h, if_neg h, if_neg h, if_neg hne, if_neg hne]
  exact ⟨rfl, rfl, rfl⟩

theorem tick_sync_expire (i : Pins) (t : State) (h : t.dtimeout - 1 = 0) :
    (t.dstate = 0 → (tick i t).dstate = 1 ∧ (tick i t).dtimeout = 10 ∧
      (tick i t).TM2C = 0b00101100) ∧
    (t.dstate = 1 → (tick i t).dstate = 2 ∧ (tick i t).dtimeout = 25 ∧ (tick i t).TM2C = 0) ∧
    (t.dstate = 2 → (tick i t).dstate = 3 ∧ (tick i t).dtimeout = 100 ∧
      (tick i t).TM2C = t.TM2C) ∧
    (t.dstate = 3 → (tick i t).dstate = 0 ∧ (tick i t).dtimeout = 30000 ∧
      (tick i t).TM2C = t.TM2C) := by
  obtain ⟨v1, v2, v3⟩ := tick_sync_view i t
  rw [v1, v2, v3, if_pos h, if_pos h, if_pos h]
  refine ⟨?_, ?_, ?_, ?_⟩ <;> intro hd <;> rw [hd] <;> simp

theorem cycleInv_step (c : Nat) (i : Pins) (t : State) (k : Nat) (hk : k < 30135)
    (hq : refreshes i t = false) (hinv : cycleInv c k t) : cycleInv c (k + 1) (tick i t) := by
  rw [refreshes_false_iff] at hq
  obtain ⟨c0, c1, c2, c3, -⟩ := hinv
  unfold cycleInv
  by_cases hexp : t.dtimeout - 1 = 0
  · obtain ⟨e0, e1, e2, e3⟩ := tick_sync_expire i t hexp
    by_cases h0 : k < 30000
    · obtain ⟨a, b, c⟩ := c0 h0
      obtain ⟨x, y, z⟩ := e0 a
      rw [x, y, z]
      omega
    · by_cases h1 : k < 30010
      · obtain ⟨a, b, c⟩ := c1 (by omega) h1
        obtain ⟨x, y, z⟩ := e1 a
        rw [x, y, z]
        omega
      · by_cases h2 : k < 30035
        · obtain ⟨a, b, c⟩ := c2 (by omega) h2
          obtain ⟨x, y, z⟩ := e2 a
          rw [x, y, z, c]
          omega
        · obtain ⟨a, b, c⟩ := c3 (by omega) (by omega)
          obtain ⟨x, y, z⟩ := e3 a
          rw [x, y, z, c]
          omega
  · have hne : ¬ (t.dstate = 0 ∧ (sensed i t).IRrecstate = 0x01) := by
      intro h
      exact hq ⟨Or.inl h.1, hexp, h.2⟩
    obtain ⟨x, y, z⟩ := tick_sync_hold i t hexp hne
    rw [x, y, z]
    by_cases h0 : k < 30000
    · obtain ⟨a, b, c⟩ := c0 h0
      rw [a, b, c] at *
      omega
    · by_cases h1 : k < 30010
      · obtain ⟨a, b, c⟩ := c1 (by omega) h1
        rw [a, b, c] at *
        omega
      · by_cases h2 : k < 30035
        · obtain ⟨a, b, c⟩ := c2 (by omega) h2
          rw [a, b, c] at *
          omega
        · obtain ⟨a, b, c⟩ := c3 (by omega) (by omega)
          rw [a, b, c] at *
          omega


theorem cycle_run (inp : Nat → Pins) (s : State) (h0 : s.dstate = 0) (h1 : s.dtimeout = 30000)
    (hq : ∀ j < 30135, refreshes (inp j) (runTicks inp s j) = false)
    (k : Nat) (hk : k ≤ 30135) : cycleInv s.TM2C k (runTicks inp s k) := by
  induction k with
  | zero =>
    refine ⟨fun _ => ⟨h0, h1, rfl⟩, ?_, ?_, ?_, ?_⟩ <;> intros <;> omega
  | succ k ih =>
    rw [runTicks_succ]
    exact cycleInv_step s.TM2C (inp k) _ k (by omega) (hq k (by omega)) (ih (by omega))

/-- C18: let a device enter Listen with countdown 30000, and let no rising edge be
registered during the next 30135 ticks.  Then after tick `k` it is in Listen for
`k < 30000` (Timer2 untouched), in TransmitPrimary with the carrier running
(`TM2C = 0b00101100`) for the 10 ticks 30000..30009, in DeafShort for the 25 ticks
30010..30034, in ListenPassive for the 100 ticks 30035..30134, and back in Listen with
countdown 30000 at tick 30135; from tick 30010 on the carrier is stopped (`TM2C = 0`),
and TogetherTimeout stays 0 if it was 0. -/
theorem C18_listen_cycle (inp : Nat → Pins) (s : State) (h0 : s.dstate = 0)
    (h1 : s.dtimeout = 30000)
    (hq : ∀ j < 30135, refreshes (inp j) (runTicks inp s j) = false)
    (k : Nat) (hk : k ≤ 30135) :
    (k < 30000 → (runTicks inp s k).dstate = 0 ∧ (runTicks inp s k).dtimeout = 30000 - k ∧
      (runTicks inp s k).TM2C = s.TM2C) ∧
    (30000 ≤ k → k < 30010 → (runTicks inp s k).dstate = 1 ∧
      (runTicks inp s k).dtimeout = 30010 - k ∧ (runTicks inp s k).TM2C = 0b00101100) ∧
    (30010 ≤ k → k < 30035 → (runTicks inp s k).dstate = 2 ∧
      (runTicks inp s k).dtimeout = 30035 - k ∧ (runTicks inp s k).TM2C = 0) ∧
    (30035 ≤ k → k < 30135 → (runTicks inp s k).dstate = 3 ∧
      (runTicks inp s k).dtimeout = 30135 - k ∧ (runTicks inp s k).TM2C = 0) ∧
    (k = 30135 → (runTicks inp s k).dstate = 0 ∧ (runTicks inp s k).dtimeout = 30000 ∧
      (runTicks inp s k).TM2C = 0) ∧
    (s.ttimeout = 0 → (runTicks inp s k).ttimeout = 0) := by
  obtain ⟨c0, c1, c2, c3, c4⟩ := cycle_run inp s h0 h1 hq k hk
  refine ⟨c0, c1, c2, c3, c4, fun ht => ?_⟩
  rw [ttimeout_run inp s k (fun j hj => hq j (by omega)), ht]
  exact Nat.zero_sub k

theorem quiet_exCycle_no_refresh (j : Nat) :
    refreshes (quiet j) (runTicks quiet exCycle j) = false := by
  have h := idle_run quiet exCycle (fun _ => rfl) rfl rfl j
  exact idle_no_refresh _ _ rfl h.1 h.2

/-- Witness for C18: `exCycle` with quiet inputs, at the ticks where the state changes. -/
theorem C18_listen_cycle_witness :
    (exCycle.dstate = 0 ∧ exCycle.dtimeout = 30000 ∧ exCycle.TM2C = 0 ∧ exCycle.ttimeout = 0 ∧
      ∀ j < 30135, refreshes (quiet j) (runTicks quiet exCycle j) = false) ∧
    ((runTicks quiet exCycle 29999).dstate = 0 ∧ (runTicks quiet exCycle 29999).dtimeout = 1 ∧
      (runTicks quiet exCycle 29999).TM2C = exCycle.TM2C) ∧
    ((runTicks quiet exCycle 30000).dstate = 1 ∧ (runTicks quiet exCycle 30000).dtimeout = 10 ∧
      (runTicks quiet exCycle 30000).TM2C = 0b00101100) ∧
    ((runTicks quiet exCycle 30010).dstate = 2 ∧ (runTicks quiet exCycle 30010).dtimeout = 25 ∧
      (runTicks quiet exCycle 30010).TM2C = 0) ∧
    ((runTicks quiet exCycle 30035).dstate = 3 ∧ (runTicks quiet exCycle 30035).dtimeout = 100 ∧
      (runTicks quiet exCycle 30035).TM2C = 0) ∧
    ((runTicks quiet exCycle 30135).dstate = 0 ∧ (runTicks quiet exCycle 30135).dtimeout = 30000 ∧
      (runTicks quiet exCycle 30135).TM2C = 0) ∧
    (runTicks quiet exCycle 30135).ttimeout = 0 :=
  ⟨⟨rfl, rfl, rfl, rfl, fun j _ => quiet_exCycle_no_refresh j⟩,
   (C18_listen_cycle quiet exCycle rfl rfl (fun j _ => quiet_exCycle_no_refresh j) 29999
      (by decide)).1 (by decide),
   (C18_listen_cycle quiet exCycle rfl rfl (fun j _ => quiet_exCycle_no_refresh j) 30000
      (by decide)).2.1 (by decide) (by decide),
   (C18_listen_cycle quiet exCycle rfl rfl (fun j _ => quiet_exCycle_no_refresh j) 30010
      (by decide)).2.2.1 (by decide) (by decide),
   (C18_listen_cycle quiet exCycle rfl rfl (fun j _ => quiet_exCycle_no_refresh j) 30035
      (by decide)).2.2.2.1 (by decide) (by decide),
   (C18_listen_cycle quiet exCycle rfl rfl (fun j _ => quiet_exCycle_no_refresh j) 30135
      (by decide)).2.2.2.2.1 rfl,
   (C18_listen_cycle quiet exCycle rfl rfl (fun j _ => quiet_exCycle_no_refresh j) 30135
      (by decide)).2.2.2.2.2 rfl⟩

/-! ## The IR edge code -/

theorem sensed_IRrecstate_eq (i : Pins) (s : State) :
    (sensed i s).IRrecstate =
      if (sensed i s).IRrecshift &&& 0x1f = 0x00 then
        ((((if (sensed i s).IRrecshift &&& 0x1f = 0x1f then ((s.IRrecstate <<< 1) &&& 0x02) % 256
          else s.IRrecstate) <<< 1) &&& 0x02) ||| 1) % 256
      else (if (sensed i s).IRrecshift &&& 0x1f = 0x1f then ((s.IRrecstate <<< 1) &&& 0x02) % 256
        else s.IRrecstate) := rfl

/-- C19 (counterexample): from power-on, a tick with the receiver pin low makes the IR code
rising-edge (1); on the next tick the pin is high, the five youngest samples are mixed
(`00001`), and the code is still rising-edge (1) although the debounced level (bit 0)
has not changed on that tick. -/
theorem C19_edge_code_persists :
    (tick irActive powerOn).IRrecstate = 1 ∧
    (tick btnUp (tick irActive powerOn)).IRrecstate = 1 ∧
    (sensed btnUp (tick irActive powerOn)).IRrecshift &&& 0x1f = 0x01 ∧
    (tick btnUp (tick irActive powerOn)).IRrecstate &&& 1 = (tick irActive powerOn).IRrecstate &&& 1 := by
  decide

/-- C19 (amended): for every prior IR code in {0,1,2,3} the code after a tick is again in
{0,1,2,3}.  On a tick at which the five youngest raw samples are all equal, the code is
rising-edge (1) exactly when the debounced level (bit 0) changes from inactive to active
on this tick, falling-edge (2) exactly when it changes from active to inactive, and idle
(0) or active (3) when the level does not change.  On a tick at which the five youngest
samples are mixed the code keeps its prior value, edge codes included. -/
theorem C19_edge_code_on_uniform_window (i : Pins) (s : State) (hc : s.IRrecstate ≤ 3) :
    (tick i s).IRrecstate ≤ 3 ∧
    ((sensed i s).IRrecshift &&& 0x1f = 0x1f ∨ (sensed i s).IRrecshift &&& 0x1f = 0x00 →
      ((tick i s).IRrecstate = 1 ↔
        s.IRrecstate &&& 1 = 0 ∧ (tick i s).IRrecstate &&& 1 = 1) ∧
      ((tick i s).IRrecstate = 2 ↔
        s.IRrecstate &&& 1 = 1 ∧ (tick i s).IRrecstate &&& 1 = 0) ∧
      ((tick i s).IRrecstate &&& 1 = s.IRrecstate &&& 1 →
        (tick i s).IRrecstate = 0 ∨ (tick i s).IRrecstate = 3)) ∧
    ((sensed i s).IRrecshift &&& 0x1f ≠ 0x1f → (sensed i s).IRrecshift &&& 0x1f ≠ 0x00 →
      (tick i s).IRrecstate = s.IRrecstate) := by
  rw [tick_IRrecstate, sensed_IRrecstate_eq]
  generalize (sensed i s).IRrecshift &&& 0x1f = w
  generalize s.IRrecstate = c at hc ⊢
  by_cases h1 : w = 0x1f
  · subst h1
    interval_cases c <;> decide
  · by_cases h0 : w = 0x00
    · subst h0
      interval_cases c <;> decide
    · rw [if_neg h0, if_neg h1]
      exact ⟨hc, fun h => absurd h (by omega), fun _ _ => rfl⟩

/-- Witness for C19 (amended): `exListen` with the receiver pin low (window all active, code
0 becomes 1) and `exTogether` with the pin high (window mixed, code 1 is kept). -/
theorem C19_edge_code_on_uniform_window_witness :
    (exListen.IRrecstate ≤ 3 ∧ (sensed irActive exListen).IRrecshift &&& 0x1f = 0x00 ∧
      exTogether.IRrecstate ≤ 3 ∧ (sensed btnUp exTogether).IRrecshift &&& 0x1f ≠ 0x1f ∧
      (sensed btnUp exTogether).IRrecshift &&& 0x1f ≠ 0x00) ∧
    ((tick irActive exListen).IRrecstate = 1 ↔
        exListen.IRrecstate &&& 1 = 0 ∧ (tick irActive exListen).IRrecstate &&& 1 = 1) ∧
    (tick btnUp exTogether).IRrecstate = exTogether.IRrecstate :=
  ⟨by decide,
   ((C19_edge_code_on_uniform_window irActive exListen (by decide)).2.1
      (Or.inr (by decide))).1,
   (C19_edge_code_on_uniform_window btnUp exTogether (by decide)).2.2 (by decide) (by decide)⟩

/-! ## Flashlight and colour LEDs -/

theorem allHigh_sensed (i : Pins) (s : State) : allHigh (sensed i s) = allHigh s := by
  show allHigh { s with
    PA := (s.PA &&& 0x7f) ||| (if i.pa7 then 0x80 else 0x00)
    PB := (s.PB &&& 0x7f) ||| (if i.pb7 then 0x80 else 0x00) } = allHigh s
  cases i.pa7 <;> cases i.pb7 <;>
    simp only [allHigh, Nat.testBit_and, Nat.testBit_or] <;>
    simp +decide [Nat.testBit_to_div_mod]

theorem allHigh_syncStep (s : State) : allHigh (syncStep s) = allHigh s := by
  unfold syncStep startPulse stopPulse
  split <;> (repeat' split) <;> first
    | rfl
    | (simp only [allHigh, Nat.testBit_and, Nat.testBit_or]
       simp +decide [Nat.testBit_to_div_mod])

theorem allHigh_flashStep (s : State) (hon : lampOn (flashStep s) = true)
    (hinv : lampOn s = true → allHigh s = true) : allHigh (flashStep s) = true := by
  have key : ∀ f, flashStep s = f → lampOn f = true → allHigh f = true := by
    intro f hf
    unfold flashStep at hf
    split at hf <;> (repeat' split at hf) <;> subst hf <;> intro hon <;>
      simp only [allHigh, lampOn, Nat.testBit_and, Nat.testBit_or] at hon hinv ⊢ <;>
      simp +decide [Nat.testBit_to_div_mod] at hon hinv ⊢ <;>
      exact hinv hon
  exact key _ rfl hon

theorem ledStage_of_lampOn (s : State) (hon : lampOn s = true) : ledStage s = s := by
  unfold ledStage
  rw [if_neg]
  intro h
  rw [(lampOff_iff s).1 h] at hon
  exact Bool.false_ne_true hon

theorem lamp_excludes_leds_step (i : Pins) (t : State)
    (hinv : lampOn t = true → allHigh t = true) :
    lampOn (tick i t) = true → allHigh (tick i t) = true := by
  intro hon
  rw [tick_lampOn] at hon
  have h1 := allHigh_flashStep (sensed i t) hon
    (by rw [sensed_lampOn, allHigh_sensed]; exact hinv)
  have hl : lampOn (syncStep (flashStep (sensed i t))) = true := by
    rw [syncStep_lampOn]; exact hon
  rw [tick_eq, ledStage_of_lampOn _ hl, allHigh_syncStep]
  exact h1

theorem lamp_excludes_leds_run (inp : Nat → Pins) (k : Nat) :
    lampOn (runTicks inp powerOn k) = true → allHigh (runTicks inp powerOn k) = true := by
  induction k with
  | zero =>
    intro h
    have h0 : lampOn powerOn = false := by decide
    rw [show runTicks inp powerOn 0 = powerOn from rfl, h0] at h
    exact absurd h (by decide)
  | succ k ih =>
    rw [runTicks_succ]
    exact lamp_excludes_leds_step (inp k) _ ih

theorem allHigh_iff (s : State) :
    allHigh s = true ↔ ledsLit s.PA s.PB = 0 ∧ ∀ l : Led, l.low s.PA s.PB = false := by
  unfold allHigh ledsLit ledLow
  constructor
  · intro h
    simp only [Bool.and_eq_true] at h
    obtain ⟨⟨⟨⟨⟨h1, h2⟩, h3⟩, h4⟩, h5⟩, h6⟩ := h
    refine ⟨by simp [h1, h2, h3, h4, h5, h6], fun l => ?_⟩
    cases l <;> simp [Led.low, h1, h2, h3, h4, h5, h6]
  · intro h
    have a := h.2 Led.R1
    have b := h.2 Led.B1
    have c := h.2 Led.G1
    have d := h.2 Led.G2
    have e := h.2 Led.R2
    have f := h.2 Led.B2
    simp [Led.low] at a b c d e f
    simp [a, b, c, d, e, f]

/-- C20: in every state reached from power-on by any number of ticks under any input
sequence, if the flashlight output PB3 is ON then none of the six colour-LED lines PA0,
PA4, PB0, PB2, PB5, PB6 is low: flashlight and colour LEDs are never lit together. -/
theorem C20_lamp_excludes_colour_leds (inp : Nat → Pins) (k : Nat)
    (hon : lampOn (runTicks inp powerOn k) = true) :
    ledsLit (runTicks inp powerOn k).PA (runTicks inp powerOn k).PB = 0 ∧
    ∀ l : Led, l.low (runTicks inp powerOn k).PA (runTicks inp powerOn k).PB = false :=
  (allHigh_iff _).1 (lamp_excludes_leds_run inp k hon)

/-- Witness for C20: eight ticks after power-on with the button held the flashlight is ON. -/
theorem C20_lamp_excludes_colour_leds_witness :
    lampOn (runTicks held powerOn 8) = true ∧
    (ledsLit (runTicks held powerOn 8).PA (runTicks held powerOn 8).PB = 0 ∧
    ∀ l : Led, l.low (runTicks held powerOn 8).PA (runTicks held powerOn 8).PB = false) :=
  ⟨by decide, C20_lamp_excludes_colour_leds held 8 (by decide)⟩

/-! ## The flashlight output follows the flashlight state -/

theorem flashInv_powerOn : flashInv powerOn := by
  constructor <;> decide

/-- Every branch of `switch (fstate)` keeps PB3 in step with the new `fstate`. -/
theorem flashInv_flashStep (d : State) (h : flashInv d) : flashInv (flashStep d) := by
  have key : ∀ f, flashStep d = f → flashInv f := by
    intro f hf
    obtain ⟨h8, hl⟩ := h
    unfold flashStep at hf
    split at hf <;> (repeat' split at hf) <;> subst hf
    all_goals try exact ⟨h8, hl⟩
    all_goals simp only [flashInv, lampOn, Nat.testBit_and, Nat.testBit_or] at hl ⊢
    all_goals simp +decide [lampStates, *] at hl
    all_goals simp +decide [lampStates, hl]
  exact key _ rfl

/-- One whole tick keeps the invariant: sampling, the counters, the debouncer, the
synchronisation machine and the LED stage touch neither `fstate` nor PB3. -/
theorem flashInv_tick (i : Pins) (s : State) (h : flashInv s) : flashInv (tick i s) := by
  have hs : flashInv (sensed i s) := by
    unfold flashInv at h ⊢
    rw [sensed_fstate, sensed_lampOn]
    exact h
  have hf := flashInv_flashStep (sensed i s) hs
  unfold flashInv at hf ⊢
  rw [tick_fstate, tick_lampOn]
  exact hf

theorem flashInv_run (inp : Nat → Pins) (k : Nat) : flashInv (runTicks inp powerOn k) := by
  induction k with
  | zero => exact flashInv_powerOn
  | succ k ih =>
    rw [runTicks_succ]
    exact flashInv_tick (inp k) _ ih

/-- C21: from power-on, under any input sequence and after any number of ticks,
`fstate` is one of the nine defined states 0..8, the flashlight output PB3 is on
exactly when `fstate` is 1, 2, 4, 5, 6 or 8, and it is off exactly when `fstate`
is 0, 3 or 7. -/
theorem C21_lamp_follows_flashlight_state (inp : Nat → Pins) (k : Nat) :
    (runTicks inp powerOn k).fstate ≤ 8 ∧
    (lampOn (runTicks inp powerOn k) = true ↔
      ((runTicks inp powerOn k).fstate = 1 ∨ (runTicks inp powerOn k).fstate = 2 ∨
       (runTicks inp powerOn k).fstate = 4 ∨ (runTicks inp powerOn k).fstate = 5 ∨
       (runTicks inp powerOn k).fstate = 6 ∨ (runTicks inp powerOn k).fstate = 8)) ∧
    (lampOn (runTicks inp powerOn k) = false ↔
      ((runTicks inp powerOn k).fstate = 0 ∨ (runTicks inp powerOn k).fstate = 3 ∨
       (runTicks inp powerOn k).fstate = 7)) := by
  obtain ⟨h8, hl⟩ := flashInv_run inp k
  generalize runTicks inp powerOn k = t at h8 hl
  rw [hl]
  unfold lampStates
  refine ⟨h8, ?_, ?_⟩
  · simp only [decide_eq_true_eq]
  · simp only [decide_eq_false_iff_not]
    omega

end Trinket
